import Mathlib

/- Shallow embedding of the statistics aggregation engine of the myfinance
backend. The definitions below are translated from
src/backend/app/services/statistics_service.py and the data model in
src/backend/app/models/transaction.py and src/backend/app/models/statistics.py.
Monetary amounts are embedded as exact rationals, dates as (year, month, day)
triples compared lexicographically, matching Python date ordering. -/

namespace MyFinance

/-- The transaction type enum from models/transaction.py. -/
inductive TransactionType
  | INCOME
  | EXPENSE
  | TRANSFER
deriving DecidableEq

/-- The expense category enum from models/transaction.py, in declaration order. -/
inductive ExpenseCategory
  | HOUSING
  | UTILITIES
  | GROCERIES
  | TRANSPORTATION
  | INSURANCE
  | HEALTH
  | LOAN_REPAYMENT
  | CREDIT_PAYMENT
  | DEBT
  | FINANCIAL_FEES
  | INVESTMENTS
  | SAVINGS
  | EATING_OUT
  | PERSONAL
  | SHOPPING
  | GIFTS
  | DONATIONS
  | EDUCATION
  | TRAVEL
  | ENTERTAINMENT
  | INTERNAL_TRANSFER
  | OTHERS
deriving DecidableEq

/-- Iteration order of the Python loop for cat in ExpenseCategory. -/
def ExpenseCategory.all : List ExpenseCategory :=
  [.HOUSING, .UTILITIES, .GROCERIES, .TRANSPORTATION, .INSURANCE, .HEALTH,
   .LOAN_REPAYMENT, .CREDIT_PAYMENT, .DEBT, .FINANCIAL_FEES,
   .INVESTMENTS, .SAVINGS,
   .EATING_OUT, .PERSONAL, .SHOPPING, .GIFTS, .DONATIONS, .EDUCATION,
   .TRAVEL, .ENTERTAINMENT, .INTERNAL_TRANSFER, .OTHERS]

/-- The income category enum from models/transaction.py, in declaration order. -/
inductive IncomeCategory
  | SALARY
  | INVESTMENTS
  | BUSINESS
  | RENTAL
  | FREELANCE
  | PENSION
  | BENEFITS
  | GIFTS
  | REFUNDS
  | LOAN_DISBURSEMENT
  | INTERNAL_TRANSFER
  | OTHER
deriving DecidableEq

/-- Iteration order of the Python loop for cat in IncomeCategory. -/
def IncomeCategory.all : List IncomeCategory :=
  [.SALARY, .INVESTMENTS, .BUSINESS, .RENTAL, .FREELANCE, .PENSION,
   .BENEFITS, .GIFTS, .REFUNDS, .LOAN_DISBURSEMENT, .INTERNAL_TRANSFER, .OTHER]

/-- A calendar date, as used by the service (Python datetime.date). -/
structure MDate where
  year : Nat
  month : Nat
  day : Nat
deriving DecidableEq

/-- Python date ordering is lexicographic on (year, month, day). -/
def dateLe (a b : MDate) : Bool :=
  decide (a.year < b.year ∨ (a.year = b.year ∧
    (a.month < b.month ∨ (a.month = b.month ∧ a.day ≤ b.day))))

/-- calendar.isleap, as used by calendar.monthrange. -/
def isLeap (y : Nat) : Bool :=
  decide ((y % 4 = 0 ∧ y % 100 ≠ 0) ∨ y % 400 = 0)

/-- calendar.monthrange(y, m)[1]: the last day of month m of year y. -/
def monthLastDay (y m : Nat) : Nat :=
  if m = 2 then (if isLeap y then 29 else 28)
  else if m = 4 ∨ m = 6 ∨ m = 9 ∨ m = 11 then 30
  else 31

/-- target_date.replace(day=calendar.monthrange(year, month)[1]). -/
def monthEnd (d : MDate) : MDate :=
  ⟨d.year, d.month, monthLastDay d.year d.month⟩

/-- Dec 31 of the year of d, i.e. date(d.year, 12, 31). -/
def yearEnd (d : MDate) : MDate :=
  ⟨d.year, 12, 31⟩

/-- The fields of the Transaction model that the statistics service reads. -/
structure Transaction where
  transaction_date : MDate
  amount : ℚ
  transaction_type : TransactionType
  expense_category : Option ExpenseCategory
  income_category : Option IncomeCategory
deriving DecidableEq

/-- The StatisticsPeriod enum from models/statistics.py. -/
inductive StatisticsPeriod
  | MONTHLY
  | YEARLY
  | ALL_TIME
deriving DecidableEq

/-- Placeholder target passed when the Python code passes target_date=None
(ALL_TIME calls); the ALL_TIME branches never read the target. -/
def noDate : MDate := ⟨1, 1, 1⟩

/-- The period_query filter of calculate_statistics (and the period_filters of
calculate_category_statistics, which are identical). -/
def periodFilter (period : StatisticsPeriod) (target : MDate) (t : Transaction) : Bool :=
  match period with
  | .MONTHLY => decide (t.transaction_date.year = target.year) &&
      decide (t.transaction_date.month = target.month)
  | .YEARLY => decide (t.transaction_date.year = target.year)
  | .ALL_TIME => true

/-- The cumulative_query filter of calculate_statistics (and the
cumulative_filters of calculate_category_statistics). -/
def cumulativeFilter (period : StatisticsPeriod) (target : MDate) (t : Transaction) : Bool :=
  match period with
  | .MONTHLY => dateLe t.transaction_date (monthEnd target)
  | .YEARLY => dateLe t.transaction_date (yearEnd target)
  | .ALL_TIME => true

/-- The yearly_query filter of calculate_statistics (and the yearly_filters of
calculate_category_statistics). Note that the source only constrains this
query in the MONTHLY branch: for YEARLY and ALL_TIME the query is left
unfiltered, so the yearly fields are computed over the whole ledger. -/
def yearlyFilter (period : StatisticsPeriod) (target : MDate) (t : Transaction) : Bool :=
  match period with
  | .MONTHLY => decide (t.transaction_date.year = target.year) &&
      dateLe t.transaction_date (monthEnd target)
  | .YEARLY => true
  | .ALL_TIME => true

/-- Sum of t.amount over the INCOME transactions of the list: the income
accumulation of the per-transaction loops in calculate_statistics. -/
def incomeSum (l : List Transaction) : ℚ :=
  (l.map (fun t => if t.transaction_type = .INCOME then t.amount else 0)).sum

/-- Sum of abs(t.amount) over the non-INCOME transactions of the list: the
else-branch accumulation of the loops in calculate_statistics. -/
def expenseSum (l : List Transaction) : ℚ :=
  (l.map (fun t => if t.transaction_type = .INCOME then 0 else |t.amount|)).sum

/-- Number of INCOME transactions in the list. -/
def incomeCount (l : List Transaction) : Nat :=
  (l.filter (fun t => decide (t.transaction_type = .INCOME))).length

/-- Number of non-INCOME transactions in the list. -/
def expenseCount (l : List Transaction) : Nat :=
  (l.filter (fun t => decide (t.transaction_type ≠ .INCOME))).length

/-- The dictionary returned by StatisticsService.calculate_statistics; the
fields are the FinancialStatistics columns it populates. -/
structure OverallStats where
  period_income : ℚ
  period_expenses : ℚ
  income_count : Nat
  expense_count : Nat
  period_net_savings : ℚ
  savings_rate : ℚ
  total_income : ℚ
  total_expenses : ℚ
  total_net_savings : ℚ
  average_income : ℚ
  average_expense : ℚ
  yearly_income : ℚ
  yearly_expenses : ℚ
deriving DecidableEq

/-- StatisticsService.calculate_statistics: filters the ledger through the
three windows and accumulates sums, counts and the derived ratios. The
Python loop accumulates income and expense figures in a single pass; here
each figure is its own fold over the same filtered list. -/
def calculate_statistics (ledger : List Transaction) (period : StatisticsPeriod)
    (target : MDate) : OverallStats :=
  let pts := ledger.filter (periodFilter period target)
  let cts := ledger.filter (cumulativeFilter period target)
  let yts := ledger.filter (yearlyFilter period target)
  let pInc := incomeSum pts
  let pExp := expenseSum pts
  let iCnt := incomeCount pts
  let eCnt := expenseCount pts
  { period_income := pInc
    period_expenses := pExp
    income_count := iCnt
    expense_count := eCnt
    period_net_savings := pInc - pExp
    savings_rate := if pInc > 0 then (pInc - pExp) / pInc * 100 else 0
    total_income := incomeSum cts
    total_expenses := expenseSum cts
    total_net_savings := incomeSum cts - expenseSum cts
    average_income := if iCnt > 0 then pInc / (iCnt : ℚ) else 0
    average_expense := if eCnt > 0 then pExp / (eCnt : ℚ) else 0
    yearly_income := incomeSum yts
    yearly_expenses := expenseSum yts }

/-- Sum of abs(t.amount) over a list (func.sum(func.abs(Transaction.amount))). -/
def absSum (l : List Transaction) : ℚ :=
  (l.map (fun t => |t.amount|)).sum

/-- Sum of t.amount over a list (func.sum(Transaction.amount)). -/
def signedSum (l : List Transaction) : ℚ :=
  (l.map (fun t => t.amount)).sum

/-- The period income total used as the percentage denominator for income
categories in calculate_category_statistics. -/
def period_income_total (ledger : List Transaction) (period : StatisticsPeriod)
    (target : MDate) : ℚ :=
  signedSum (ledger.filter (fun t =>
    decide (t.transaction_type = .INCOME) && periodFilter period target t))

/-- The period expense total used as the percentage denominator for expense
categories in calculate_category_statistics. Filters on transaction_type
EXPENSE only (TRANSFER rows are excluded from this denominator). -/
def period_expense_total (ledger : List Transaction) (period : StatisticsPeriod)
    (target : MDate) : ℚ :=
  absSum (ledger.filter (fun t =>
    decide (t.transaction_type = .EXPENSE) && periodFilter period target t))

/-- Category identity of a snapshot: the source stores cat.value together
with the transaction type; expense and income category names are modelled
as a sum. -/
inductive CatName
  | expense (c : ExpenseCategory)
  | income (c : IncomeCategory)
deriving DecidableEq

/-- One dictionary of the list returned by calculate_category_statistics;
the fields are the CategoryStatistics columns it populates. -/
structure CategorySnapshot where
  category_name : CatName
  transaction_type : TransactionType
  period_amount : ℚ
  period_transaction_count : Nat
  period_percentage : ℚ
  total_amount : ℚ
  total_transaction_count : Nat
  average_transaction_amount : ℚ
  yearly_amount : ℚ
  yearly_transaction_count : Nat
deriving DecidableEq

/-- The loop body for one expense category in calculate_category_statistics.
Queries filter on Transaction.expense_category == cat (with no constraint on
transaction_type) and sum absolute amounts. The Python expression
yearly_amount if StatisticsPeriod.MONTHLY else period_amount tests a truthy
enum member, so it always evaluates to yearly_amount; the embedding
reproduces that behavior. -/
def expenseCategorySnapshot (ledger : List Transaction) (period : StatisticsPeriod)
    (target : MDate) (cat : ExpenseCategory) : CategorySnapshot :=
  let pl := ledger.filter (fun t =>
    decide (t.expense_category = some cat) && periodFilter period target t)
  let cl := ledger.filter (fun t =>
    decide (t.expense_category = some cat) && cumulativeFilter period target t)
  let yl := ledger.filter (fun t =>
    decide (t.expense_category = some cat) && yearlyFilter period target t)
  let pAmt := absSum pl
  let pCnt := pl.length
  { category_name := .expense cat
    transaction_type := .EXPENSE
    period_amount := pAmt
    period_transaction_count := pCnt
    period_percentage :=
      if period_expense_total ledger period target > 0 then
        pAmt / period_expense_total ledger period target * 100 else 0
    total_amount := absSum cl
    total_transaction_count := cl.length
    average_transaction_amount := if pCnt > 0 then pAmt / (pCnt : ℚ) else 0
    yearly_amount := absSum yl
    yearly_transaction_count := yl.length }

/-- The loop body for one income category in calculate_category_statistics.
Queries filter on Transaction.income_category == cat and sum signed amounts. -/
def incomeCategorySnapshot (ledger : List Transaction) (period : StatisticsPeriod)
    (target : MDate) (cat : IncomeCategory) : CategorySnapshot :=
  let pl := ledger.filter (fun t =>
    decide (t.income_category = some cat) && periodFilter period target t)
  let cl := ledger.filter (fun t =>
    decide (t.income_category = some cat) && cumulativeFilter period target t)
  let yl := ledger.filter (fun t =>
    decide (t.income_category = some cat) && yearlyFilter period target t)
  let pAmt := signedSum pl
  let pCnt := pl.length
  { category_name := .income cat
    transaction_type := .INCOME
    period_amount := pAmt
    period_transaction_count := pCnt
    period_percentage :=
      if period_income_total ledger period target > 0 then
        pAmt / period_income_total ledger period target * 100 else 0
    total_amount := signedSum cl
    total_transaction_count := cl.length
    average_transaction_amount := if pCnt > 0 then pAmt / (pCnt : ℚ) else 0
    yearly_amount := signedSum yl
    yearly_transaction_count := yl.length }

/-- StatisticsService.calculate_category_statistics: one snapshot per expense
category followed by one per income category. -/
def calculate_category_statistics (ledger : List Transaction)
    (period : StatisticsPeriod) (target : MDate) : List CategorySnapshot :=
  ExpenseCategory.all.map (expenseCategorySnapshot ledger period target) ++
    IncomeCategory.all.map (incomeCategorySnapshot ledger period target)

/-- Key of a FinancialStatistics row: (period, date), with date none for
ALL_TIME rows. The service keeps at most one row per key (initialization
enumerates distinct periods; the incremental path creates a row only when the
keyed lookup finds none), so the overall table is embedded as a map. -/
structure OKey where
  period : StatisticsPeriod
  date : Option MDate
deriving DecidableEq

/-- Key of the Monthly row touched for a transaction date. -/
def monthlyKey (d : MDate) : OKey := ⟨.MONTHLY, some (monthEnd d)⟩

/-- Key of the Yearly row touched for a transaction date. -/
def yearlyKey (d : MDate) : OKey := ⟨.YEARLY, some (yearEnd d)⟩

/-- Key of the single ALL_TIME row. -/
def allTimeKey : OKey := ⟨.ALL_TIME, none⟩

/-- A persisted CategoryStatistics row: its (period, date) key plus the
snapshot fields. -/
structure CatRow where
  period : StatisticsPeriod
  date : Option MDate
  snap : CategorySnapshot
deriving DecidableEq

/-- The mutable store owned by the statistics service: the transaction ledger
(read-only for this core) and the two statistics tables. -/
structure State where
  ledger : List Transaction
  overall : OKey → Option OverallStats
  cats : List CatRow

/-- Pointwise update of the overall map at one key (create-or-overwrite, the
net effect of the insert-then-setattr sequence in the service). -/
def updFun (f : OKey → Option OverallStats) (k : OKey) (v : OverallStats) :
    OKey → Option OverallStats :=
  fun q => if q = k then some v else f q

/-- getOverallBucket: read one overall row. -/
def readOverall (s : State) (k : OKey) : Option OverallStats :=
  s.overall k

/-- The row predicate selecting the category rows with a given key. -/
def keyPred (k : OKey) (r : CatRow) : Bool :=
  decide (r.period = k.period ∧ r.date = k.date)

/-- getCategoryBuckets: the persisted category rows with the given key, in
table order. -/
def readCats (s : State) (k : OKey) : List CatRow :=
  s.cats.filter (keyPred k)

/-- The persistence guard of the service: a computed category snapshot is
stored only if cat_data period_transaction_count is greater than 0. -/
def guardedRows (period : StatisticsPeriod) (dt : Option MDate)
    (snaps : List CategorySnapshot) : List CatRow :=
  (snaps.filter (fun c => decide (c.period_transaction_count > 0))).map
    (fun c => ⟨period, dt, c⟩)

/-- The DELETE filter for the Monthly rows at the month-end key of a date. -/
def keepM (d : MDate) (r : CatRow) : Bool :=
  !decide (r.period = .MONTHLY ∧ r.date = some (monthEnd d))

/-- The DELETE filter for the Yearly rows at the year-end key of a date. -/
def keepY (d : MDate) (r : CatRow) : Bool :=
  !decide (r.period = .YEARLY ∧ r.date = some (yearEnd d))

/-- The DELETE filter for the ALL_TIME rows (the source deletes by period
only, with no date condition). -/
def keepA (r : CatRow) : Bool :=
  !decide (r.period = .ALL_TIME)

/-- StatisticsService.update_category_statistics: delete the Monthly rows at
the month-end key and the Yearly rows at the year-end key, recompute and
append the guarded Monthly and Yearly snapshots, then delete every ALL_TIME
row and append the guarded ALL_TIME snapshots. -/
def update_category_statistics (ledger : List Transaction) (cats : List CatRow)
    (transaction_date : MDate) : List CatRow :=
  let md := monthEnd transaction_date
  let yd := yearEnd transaction_date
  let c1 := cats.filter (keepM transaction_date)
  let c2 := c1.filter (keepY transaction_date)
  let newM := guardedRows .MONTHLY (some md)
    (calculate_category_statistics ledger .MONTHLY transaction_date)
  let newY := guardedRows .YEARLY (some yd)
    (calculate_category_statistics ledger .YEARLY transaction_date)
  let newA := guardedRows .ALL_TIME none
    (calculate_category_statistics ledger .ALL_TIME noDate)
  let c3 := (c2 ++ newM ++ newY).filter keepA
  c3 ++ newA

/-- StatisticsService.update_statistics: lock-or-create the Monthly, Yearly
and ALL_TIME rows for the transaction date, overwrite each with a fresh
recompute from the current ledger, then refresh the category rows. -/
def update_statistics (s : State) (transaction_date : MDate) : State :=
  let mData := calculate_statistics s.ledger .MONTHLY transaction_date
  let yData := calculate_statistics s.ledger .YEARLY transaction_date
  let aData := calculate_statistics s.ledger .ALL_TIME noDate
  { s with
    overall :=
      updFun (updFun (updFun s.overall (monthlyKey transaction_date) mData)
        (yearlyKey transaction_date) yData) allTimeKey aData
    cats := update_category_statistics s.ledger s.cats transaction_date }

/-- The distinct (year, month) pairs present in the ledger, first occurrence
first (the SELECT DISTINCT enumeration of initialize_statistics). -/
def monthsOf (ledger : List Transaction) : List (Nat × Nat) :=
  (ledger.map (fun t => (t.transaction_date.year, t.transaction_date.month))).dedup

/-- The distinct years present in the ledger. -/
def yearsOf (ledger : List Transaction) : List Nat :=
  (ledger.map (fun t => t.transaction_date.year)).dedup

/-- The month-end date built by the initialization loops for a (year, month)
pair. -/
def monthEndYM (ym : Nat × Nat) : MDate :=
  ⟨ym.1, ym.2, monthLastDay ym.1 ym.2⟩

/-- The Dec-31 date built by the initialization loops for a year. -/
def yearEndY (y : Nat) : MDate :=
  ⟨y, 12, 31⟩

/-- The first loop of initialize_statistics: one Monthly row per distinct
ledger month, written into an empty overall table. -/
def initOverallMonths (L : List Transaction) : OKey → Option OverallStats :=
  (monthsOf L).foldl
    (fun f ym => updFun f ⟨.MONTHLY, some (monthEndYM ym)⟩
      (calculate_statistics L .MONTHLY (monthEndYM ym)))
    (fun _ => none)

/-- The second loop of initialize_statistics: one Yearly row per distinct
ledger year, on top of the Monthly rows. -/
def initOverallYears (L : List Transaction) : OKey → Option OverallStats :=
  (yearsOf L).foldl
    (fun f y => updFun f ⟨.YEARLY, some (yearEndY y)⟩
      (calculate_statistics L .YEARLY (yearEndY y)))
    (initOverallMonths L)

/-- StatisticsService.initialize_statistics: purge the overall table, then
create one Monthly row per distinct ledger month, one Yearly row per distinct
ledger year, and the single ALL_TIME row, each computed from the full
ledger. -/
def initialize_statistics (s : State) : State :=
  let ov := updFun (initOverallYears s.ledger) allTimeKey
    (calculate_statistics s.ledger .ALL_TIME noDate)
  { s with overall := ov }

/-- The first loop of initialize_category_statistics: the guarded Monthly
snapshots of every distinct ledger month, appended to an empty table. -/
def initCatsMonths (L : List Transaction) : List CatRow :=
  (monthsOf L).foldl
    (fun acc ym => acc ++ guardedRows .MONTHLY (some (monthEndYM ym))
      (calculate_category_statistics L .MONTHLY (monthEndYM ym)))
    []

/-- The second loop of initialize_category_statistics: the guarded Yearly
snapshots of every distinct ledger year, appended after the Monthly rows. -/
def initCatsYears (L : List Transaction) : List CatRow :=
  (yearsOf L).foldl
    (fun acc y => acc ++ guardedRows .YEARLY (some (yearEndY y))
      (calculate_category_statistics L .YEARLY (yearEndY y)))
    (initCatsMonths L)

/-- StatisticsService.initialize_category_statistics: purge the category
table, then append the guarded Monthly snapshots per distinct ledger month,
the guarded Yearly snapshots per distinct ledger year, and the guarded
ALL_TIME snapshots. -/
def initialize_category_statistics (s : State) : State :=
  let newA := guardedRows .ALL_TIME none
    (calculate_category_statistics s.ledger .ALL_TIME noDate)
  { s with cats := initCatsYears s.ledger ++ newA }

/-- rebuildAll of the spec: initialize_statistics followed by
initialize_category_statistics. -/
def rebuildAll (s : State) : State :=
  initialize_category_statistics (initialize_statistics s)

/-- A ledger mutation: insertion of a transaction or deletion of one
occurrence of a transaction (delete-by-identity; a recategorization is a
delete followed by an insert at the same date). -/
inductive Mutation
  | ins (t : Transaction)
  | del (t : Transaction)

/-- Effect of a mutation on the ledger. -/
def applyMutation (ledger : List Transaction) : Mutation → List Transaction
  | .ins t => ledger ++ [t]
  | .del t => ledger.erase t

/-- The affected date reported to the coordinator for a mutation. -/
def mutDate : Mutation → MDate
  | .ins t => t.transaction_date
  | .del t => t.transaction_date

/-- One incremental step: apply the mutation to the ledger, then run
update_statistics for the mutated date (every collaborator that mutates the
ledger calls the coordinator synchronously). -/
def step (s : State) (m : Mutation) : State :=
  update_statistics { s with ledger := applyMutation s.ledger m } (mutDate m)

/-- Replay of a mutation list through the incremental coordinator. -/
def replay (s : State) (ms : List Mutation) : State :=
  ms.foldl step s

/-- The empty store: no transactions, no statistics rows. -/
def emptyState : State :=
  { ledger := [], overall := fun _ => none, cats := [] }

/-- Sum of period_amount over the snapshots of a given kind in a snapshot
list; the quantity the additivity property compares with the overall period
total. -/
def snapKindSum (snaps : List CategorySnapshot) (kind : TransactionType) : ℚ :=
  ((snaps.filter (fun c => decide (c.transaction_type = kind))).map
    (fun c => c.period_amount)).sum

/-- Sum of period_amount over the persisted category rows with the given key
and kind. -/
def catKindSum (s : State) (k : OKey) (kind : TransactionType) : ℚ :=
  snapKindSum ((readCats s k).map (fun r => r.snap)) kind

/-- Additivity at one bucket key: if an overall row is persisted there, the
per-kind sums of the persisted category rows match its period totals. -/
def additivityAt (s : State) (k : OKey) : Prop :=
  ∀ o, readOverall s k = some o →
    catKindSum s k .EXPENSE = o.period_expenses ∧
    catKindSum s k .INCOME = o.period_income

section BasicLemmas

theorem sum_map_zero {α : Type} (l : List α) :
    (l.map (fun _ => (0 : ℚ))).sum = 0 := by
  induction l with
  | nil => rfl
  | cons a l ih => simp [ih]

theorem sum_map_add {α : Type} (l : List α) (f g : α → ℚ) :
    (l.map (fun a => f a + g a)).sum = (l.map f).sum + (l.map g).sum := by
  induction l with
  | nil => simp
  | cons a l ih => simp [ih]; ring

theorem sum_map_ite_not_mem {α : Type} [DecidableEq α] (l : List α) (c0 : α) (x : ℚ)
    (h : c0 ∉ l) :
    (l.map (fun c => if c0 = c then x else 0)).sum = 0 := by
  induction l with
  | nil => rfl
  | cons a l ih =>
    have ha : c0 ≠ a := fun hc => h (hc ▸ List.mem_cons_self a l)
    have hl : c0 ∉ l := fun hc => h (List.mem_cons_of_mem a hc)
    simp [ha, ih hl]

theorem sum_map_ite_count_one {α : Type} [DecidableEq α] (l : List α) (c0 : α) (x : ℚ)
    (h : l.count c0 = 1) :
    (l.map (fun c => if c0 = c then x else 0)).sum = x := by
  induction l with
  | nil => simp at h
  | cons a l ih =>
    by_cases hc : c0 = a
    · subst hc
      rw [List.count_cons_self] at h
      have hz : c0 ∉ l := by
        intro hm
        have := List.count_pos_iff.mpr hm
        omega
      simp [sum_map_ite_not_mem l c0 x hz]
    · rw [List.count_cons_of_ne hc] at h
      simp [hc, ih h]

theorem foldl_append_eq {α β : Type} (l : List α) (g : α → List β) (init : List β) :
    l.foldl (fun acc x => acc ++ g x) init = init ++ (l.map g).flatten := by
  induction l generalizing init with
  | nil => simp
  | cons a l ih => simp [ih, List.append_assoc]

theorem expenseCategory_count_one (c : ExpenseCategory) :
    ExpenseCategory.all.count c = 1 := by
  cases c <;> rfl

theorem incomeCategory_count_one (c : IncomeCategory) :
    IncomeCategory.all.count c = 1 := by
  cases c <;> rfl

end BasicLemmas

/-- C4: for every ledger state, granularity and target date, the snapshot
produced by calculate_statistics satisfies the net-savings identity:
period_net_savings equals period_income minus period_expenses and
total_net_savings equals total_income minus total_expenses. -/
theorem net_savings_identity (L : List Transaction) (p : StatisticsPeriod) (d : MDate) :
    (calculate_statistics L p d).period_net_savings =
        (calculate_statistics L p d).period_income -
          (calculate_statistics L p d).period_expenses ∧
      (calculate_statistics L p d).total_net_savings =
        (calculate_statistics L p d).total_income -
          (calculate_statistics L p d).total_expenses :=
  ⟨rfl, rfl⟩

/-- C9: for the ALL_TIME granularity the three query windows coincide with
the whole ledger, so the yearly fields equal the cumulative totals which in
turn equal the period totals, for every ledger state and target. -/
theorem all_time_yearly_equals_totals (L : List Transaction) (d : MDate) :
    (calculate_statistics L .ALL_TIME d).yearly_income =
        (calculate_statistics L .ALL_TIME d).total_income ∧
      (calculate_statistics L .ALL_TIME d).total_income =
        (calculate_statistics L .ALL_TIME d).period_income ∧
      (calculate_statistics L .ALL_TIME d).yearly_expenses =
        (calculate_statistics L .ALL_TIME d).total_expenses ∧
      (calculate_statistics L .ALL_TIME d).total_expenses =
        (calculate_statistics L .ALL_TIME d).period_expenses :=
  ⟨rfl, rfl, rfl, rfl⟩

section RatioLemmas

theorem savings_rate_eq (L : List Transaction) (p : StatisticsPeriod) (d : MDate) :
    (calculate_statistics L p d).savings_rate =
      if (calculate_statistics L p d).period_income > 0 then
        ((calculate_statistics L p d).period_income -
          (calculate_statistics L p d).period_expenses) /
          (calculate_statistics L p d).period_income * 100
      else 0 := rfl

theorem average_income_eq (L : List Transaction) (p : StatisticsPeriod) (d : MDate) :
    (calculate_statistics L p d).average_income =
      if (calculate_statistics L p d).income_count > 0 then
        (calculate_statistics L p d).period_income /
          ((calculate_statistics L p d).income_count : ℚ)
      else 0 := rfl

theorem average_expense_eq (L : List Transaction) (p : StatisticsPeriod) (d : MDate) :
    (calculate_statistics L p d).average_expense =
      if (calculate_statistics L p d).expense_count > 0 then
        (calculate_statistics L p d).period_expenses /
          ((calculate_statistics L p d).expense_count : ℚ)
      else 0 := rfl

end RatioLemmas

/-- C6: every derived ratio is total in the degenerate cases: the savings
rate is 0 when the period income is 0, the per-kind averages are 0 when the
corresponding count is 0, and a category's period percentage is 0 when the
period total for its kind is 0; no division is performed on those zero
denominators. -/
theorem ratios_total_on_zero_denominators (L : List Transaction)
    (p : StatisticsPeriod) (d : MDate) :
    ((calculate_statistics L p d).period_income = 0 →
        (calculate_statistics L p d).savings_rate = 0) ∧
      ((calculate_statistics L p d).income_count = 0 →
        (calculate_statistics L p d).average_income = 0) ∧
      ((calculate_statistics L p d).expense_count = 0 →
        (calculate_statistics L p d).average_expense = 0) ∧
      (∀ c ∈ calculate_category_statistics L p d,
        (c.transaction_type = .EXPENSE → period_expense_total L p d = 0 →
          c.period_percentage = 0) ∧
        (c.transaction_type = .INCOME → period_income_total L p d = 0 →
          c.period_percentage = 0)) := by
  refine ⟨fun h => ?_, fun h => ?_, fun h => ?_, fun c hc => ?_⟩
  · rw [savings_rate_eq, h]
    norm_num
  · rw [average_income_eq, h]
    norm_num
  · rw [average_expense_eq, h]
    norm_num
  · rcases List.mem_append.mp hc with hmem | hmem
    · rcases List.mem_map.mp hmem with ⟨cat, _, rfl⟩
      refine ⟨fun _ hz => ?_, fun ht _ => ?_⟩
      · show (if period_expense_total L p d > 0 then _ else 0) = 0
        rw [hz]
        norm_num
      · exact absurd ht (by simp [expenseCategorySnapshot])
    · rcases List.mem_map.mp hmem with ⟨cat, _, rfl⟩
      refine ⟨fun ht _ => ?_, fun _ hz => ?_⟩
      · exact absurd ht (by simp [incomeCategorySnapshot])
      · show (if period_income_total L p d > 0 then _ else 0) = 0
        rw [hz]
        norm_num

/-- C3 failing input: a ledger with income 100 in June 2022 and income 50 in
June 2023 evaluated at the YEARLY granularity for 2023. The period fields see
only the 50 of 2023, but the yearly fields are computed over the unfiltered
yearly query, so they see the whole ledger (150): the yearly fields of a
YEARLY snapshot do not equal its period fields, in the overall engine and in
the category engine alike. -/
theorem yearly_fields_all_time_for_yearly_eval :
    (calculate_statistics
        [⟨⟨2022, 6, 15⟩, 100, .INCOME, none, some .SALARY⟩,
         ⟨⟨2023, 6, 15⟩, 50, .INCOME, none, some .SALARY⟩]
        .YEARLY ⟨2023, 6, 15⟩).period_income = 50 ∧
      (calculate_statistics
        [⟨⟨2022, 6, 15⟩, 100, .INCOME, none, some .SALARY⟩,
         ⟨⟨2023, 6, 15⟩, 50, .INCOME, none, some .SALARY⟩]
        .YEARLY ⟨2023, 6, 15⟩).yearly_income = 150 ∧
      (∃ c ∈ calculate_category_statistics
        [⟨⟨2022, 6, 15⟩, 100, .INCOME, none, some .SALARY⟩,
         ⟨⟨2023, 6, 15⟩, 50, .INCOME, none, some .SALARY⟩]
        .YEARLY ⟨2023, 6, 15⟩,
        c.period_amount = 50 ∧ c.yearly_amount = 150 ∧
          c.period_transaction_count = 1 ∧ c.yearly_transaction_count = 2) := by
  with_unfolding_all decide

section AppendLemmas

theorem expenseSum_append (a b : List Transaction) :
    expenseSum (a ++ b) = expenseSum a + expenseSum b := by
  simp [expenseSum]

theorem expenseCount_append (a b : List Transaction) :
    expenseCount (a ++ b) = expenseCount a + expenseCount b := by
  simp [expenseCount, List.filter_append]

theorem expenseSum_nonneg (l : List Transaction) : 0 ≤ expenseSum l := by
  refine List.sum_nonneg ?_
  intro x hx
  rcases List.mem_map.mp hx with ⟨t, _, rfl⟩
  by_cases h : t.transaction_type = .INCOME <;> simp [h, abs_nonneg]

end AppendLemmas

/-- C10: a transaction whose type is not INCOME (in particular a TRANSFER) is
counted as an expense by the aggregation engine: appending it inside the
monthly period adds the absolute value of its amount to period_expenses,
total_expenses and yearly_expenses and increments expense_count; and the
expense totals of every snapshot are non-negative. -/
theorem non_income_counted_as_expense (L : List Transaction) (t : Transaction)
    (d : MDate) (ht : t.transaction_type ≠ .INCOME)
    (hp : periodFilter .MONTHLY d t = true)
    (hc : dateLe t.transaction_date (monthEnd d) = true) :
    (calculate_statistics (L ++ [t]) .MONTHLY d).period_expenses =
        (calculate_statistics L .MONTHLY d).period_expenses + |t.amount| ∧
      (calculate_statistics (L ++ [t]) .MONTHLY d).expense_count =
        (calculate_statistics L .MONTHLY d).expense_count + 1 ∧
      (calculate_statistics (L ++ [t]) .MONTHLY d).total_expenses =
        (calculate_statistics L .MONTHLY d).total_expenses + |t.amount| ∧
      (calculate_statistics (L ++ [t]) .MONTHLY d).yearly_expenses =
        (calculate_statistics L .MONTHLY d).yearly_expenses + |t.amount| ∧
      (∀ (L2 : List Transaction) (p2 : StatisticsPeriod) (d2 : MDate),
        0 ≤ (calculate_statistics L2 p2 d2).period_expenses ∧
        0 ≤ (calculate_statistics L2 p2 d2).total_expenses ∧
        0 ≤ (calculate_statistics L2 p2 d2).yearly_expenses) := by
  have hy : yearlyFilter .MONTHLY d t = true := by
    simp only [periodFilter, Bool.and_eq_true, decide_eq_true_eq] at hp
    simp [yearlyFilter, hp.1, hc]
  have hwin : cumulativeFilter .MONTHLY d t = true := hc
  refine ⟨?_, ?_, ?_, ?_, fun L2 p2 d2 =>
    ⟨expenseSum_nonneg _, expenseSum_nonneg _, expenseSum_nonneg _⟩⟩
  · show expenseSum ((L ++ [t]).filter (periodFilter .MONTHLY d)) =
      expenseSum (L.filter (periodFilter .MONTHLY d)) + |t.amount|
    rw [List.filter_append, expenseSum_append]
    congr 1
    simp [expenseSum, hp, ht]
  · show expenseCount ((L ++ [t]).filter (periodFilter .MONTHLY d)) =
      expenseCount (L.filter (periodFilter .MONTHLY d)) + 1
    rw [List.filter_append, expenseCount_append]
    congr 1
    simp [expenseCount, hp, ht]
  · show expenseSum ((L ++ [t]).filter (cumulativeFilter .MONTHLY d)) =
      expenseSum (L.filter (cumulativeFilter .MONTHLY d)) + |t.amount|
    rw [List.filter_append, expenseSum_append]
    congr 1
    simp [expenseSum, hwin, ht]
  · show expenseSum ((L ++ [t]).filter (yearlyFilter .MONTHLY d)) =
      expenseSum (L.filter (yearlyFilter .MONTHLY d)) + |t.amount|
    rw [List.filter_append, expenseSum_append]
    congr 1
    simp [expenseSum, hy, ht]

section StateLemmas

theorem readOverall_update_monthly (s : State) (d : MDate) :
    readOverall (update_statistics s d) (monthlyKey d) =
      some (calculate_statistics s.ledger .MONTHLY d) := by
  simp [readOverall, update_statistics, updFun, monthlyKey, yearlyKey, allTimeKey]

theorem readOverall_update_yearly (s : State) (d : MDate) :
    readOverall (update_statistics s d) (yearlyKey d) =
      some (calculate_statistics s.ledger .YEARLY d) := by
  simp [readOverall, update_statistics, updFun, monthlyKey, yearlyKey, allTimeKey]

theorem readOverall_update_allTime (s : State) (d : MDate) :
    readOverall (update_statistics s d) allTimeKey =
      some (calculate_statistics s.ledger .ALL_TIME noDate) := by
  simp [readOverall, update_statistics, updFun, allTimeKey]

theorem readOverall_update_other (s : State) (d : MDate) (k : OKey)
    (h1 : k ≠ monthlyKey d) (h2 : k ≠ yearlyKey d) (h3 : k ≠ allTimeKey) :
    readOverall (update_statistics s d) k = readOverall s k := by
  simp [readOverall, update_statistics, updFun, h1, h2, h3]

theorem mem_guardedRows {p : StatisticsPeriod} {dt : Option MDate}
    {snaps : List CategorySnapshot} {r : CatRow} (h : r ∈ guardedRows p dt snaps) :
    r.period = p ∧ r.date = dt ∧ r.snap ∈ snaps ∧ r.snap.period_transaction_count ≠ 0 := by
  rcases List.mem_map.mp h with ⟨c, hc, rfl⟩
  rcases List.mem_filter.mp hc with ⟨hmem, hcount⟩
  simp only [decide_eq_true_eq] at hcount
  exact ⟨rfl, rfl, hmem, Nat.pos_iff_ne_zero.mp hcount⟩

theorem guardedRows_filter_all {p : StatisticsPeriod} {dt : Option MDate}
    {snaps : List CategorySnapshot} (P : CatRow → Bool)
    (h : ∀ r : CatRow, r.period = p → r.date = dt → P r = true) :
    (guardedRows p dt snaps).filter P = guardedRows p dt snaps :=
  List.filter_eq_self.mpr fun r hr =>
    h r (mem_guardedRows hr).1 (mem_guardedRows hr).2.1

theorem guardedRows_filter_none {p : StatisticsPeriod} {dt : Option MDate}
    {snaps : List CategorySnapshot} (P : CatRow → Bool)
    (h : ∀ r : CatRow, r.period = p → r.date = dt → P r = false) :
    (guardedRows p dt snaps).filter P = [] :=
  List.filter_eq_nil_iff.mpr fun r hr => by
    rw [h r (mem_guardedRows hr).1 (mem_guardedRows hr).2.1]
    simp

theorem update_cats_eq (L : List Transaction) (cats : List CatRow) (d : MDate) :
    update_category_statistics L cats d =
      ((cats.filter (keepM d)).filter (keepY d)).filter keepA ++
        guardedRows .MONTHLY (some (monthEnd d))
          (calculate_category_statistics L .MONTHLY d) ++
        guardedRows .YEARLY (some (yearEnd d))
          (calculate_category_statistics L .YEARLY d) ++
        guardedRows .ALL_TIME none
          (calculate_category_statistics L .ALL_TIME noDate) := by
  have hM := @guardedRows_filter_all .MONTHLY (some (monthEnd d))
    (calculate_category_statistics L .MONTHLY d)
    keepA (fun r h1 _ => by simp [keepA, h1])
  have hY := @guardedRows_filter_all .YEARLY (some (yearEnd d))
    (calculate_category_statistics L .YEARLY d)
    keepA (fun r h1 _ => by simp [keepA, h1])
  simp only [update_category_statistics]
  rw [List.filter_append, List.filter_append, hM, hY]

theorem filter_of_filter {α : Type} (l : List α) (P Q : α → Bool)
    (h : ∀ r, P r = true → Q r = true) : (l.filter Q).filter P = l.filter P := by
  induction l with
  | nil => rfl
  | cons r l ih =>
    by_cases hq : Q r = true
    · by_cases hp : P r = true <;> simp [List.filter_cons, hq, hp, ih]
    · have hp : ¬ P r = true := fun hp => hq (h r hp)
      simp [List.filter_cons, hq, hp, ih]

theorem old_segment_filter_keyM (cats : List CatRow) (d : MDate) :
    (((cats.filter (keepM d)).filter (keepY d)).filter keepA).filter
      (keyPred (monthlyKey d)) = [] := by
  refine List.filter_eq_nil_iff.mpr fun r hr => ?_
  have hm : keepM d r = true :=
    (List.mem_filter.mp
      (List.mem_of_mem_filter (List.mem_of_mem_filter hr))).2
  simp only [keepM, Bool.not_eq_eq_eq_not, Bool.not_true, decide_eq_false_iff_not] at hm
  simp only [keyPred, monthlyKey, decide_eq_true_eq, not_and]
  intro ha hb
  exact hm ⟨ha, hb⟩

theorem old_segment_filter_keyY (cats : List CatRow) (d : MDate) :
    (((cats.filter (keepM d)).filter (keepY d)).filter keepA).filter
      (keyPred (yearlyKey d)) = [] := by
  refine List.filter_eq_nil_iff.mpr fun r hr => ?_
  have hm : keepY d r = true :=
    (List.mem_filter.mp (List.mem_of_mem_filter hr)).2
  simp only [keepY, Bool.not_eq_eq_eq_not, Bool.not_true, decide_eq_false_iff_not] at hm
  simp only [keyPred, yearlyKey, decide_eq_true_eq, not_and]
  intro ha hb
  exact hm ⟨ha, hb⟩

theorem old_segment_filter_keyA (cats : List CatRow) (d : MDate) :
    (((cats.filter (keepM d)).filter (keepY d)).filter keepA).filter
      (keyPred allTimeKey) = [] := by
  refine List.filter_eq_nil_iff.mpr fun r hr => ?_
  have hm : keepA r = true := (List.mem_filter.mp hr).2
  simp only [keepA, Bool.not_eq_eq_eq_not, Bool.not_true, decide_eq_false_iff_not] at hm
  simp only [keyPred, allTimeKey, decide_eq_true_eq, not_and]
  intro hcon
  exact absurd hcon hm

theorem readCats_update_monthly (s : State) (d : MDate) :
    readCats (update_statistics s d) (monthlyKey d) =
      guardedRows .MONTHLY (some (monthEnd d))
        (calculate_category_statistics s.ledger .MONTHLY d) := by
  show (update_category_statistics s.ledger s.cats d).filter _ = _
  rw [update_cats_eq]
  simp only [List.filter_append]
  rw [old_segment_filter_keyM,
    guardedRows_filter_all (keyPred (monthlyKey d))
      (fun r h1 h2 => by simp [keyPred, monthlyKey, h1, h2]),
    guardedRows_filter_none (keyPred (monthlyKey d))
      (fun r h1 h2 => by simp [keyPred, monthlyKey, h1]),
    guardedRows_filter_none (keyPred (monthlyKey d))
      (fun r h1 h2 => by simp [keyPred, monthlyKey, h1])]
  simp

theorem readCats_update_yearly (s : State) (d : MDate) :
    readCats (update_statistics s d) (yearlyKey d) =
      guardedRows .YEARLY (some (yearEnd d))
        (calculate_category_statistics s.ledger .YEARLY d) := by
  show (update_category_statistics s.ledger s.cats d).filter _ = _
  rw [update_cats_eq]
  simp only [List.filter_append]
  rw [old_segment_filter_keyY,
    guardedRows_filter_none (keyPred (yearlyKey d))
      (fun r h1 h2 => by simp [keyPred, yearlyKey, h1]),
    guardedRows_filter_all (keyPred (yearlyKey d))
      (fun r h1 h2 => by simp [keyPred, yearlyKey, h1, h2]),
    guardedRows_filter_none (keyPred (yearlyKey d))
      (fun r h1 h2 => by simp [keyPred, yearlyKey, h1])]
  simp

theorem readCats_update_allTime (s : State) (d : MDate) :
    readCats (update_statistics s d) allTimeKey =
      guardedRows .ALL_TIME none
        (calculate_category_statistics s.ledger .ALL_TIME noDate) := by
  show (update_category_statistics s.ledger s.cats d).filter _ = _
  rw [update_cats_eq]
  simp only [List.filter_append]
  rw [old_segment_filter_keyA,
    guardedRows_filter_none (keyPred allTimeKey)
      (fun r h1 h2 => by simp [keyPred, allTimeKey, h1]),
    guardedRows_filter_none (keyPred allTimeKey)
      (fun r h1 h2 => by simp [keyPred, allTimeKey, h1]),
    guardedRows_filter_all (keyPred allTimeKey)
      (fun r h1 h2 => by simp [keyPred, allTimeKey, h1, h2])]
  simp

theorem readCats_update_other (s : State) (d : MDate) (k : OKey)
    (h1 : k ≠ monthlyKey d) (h2 : k ≠ yearlyKey d) (h3 : k.period ≠ .ALL_TIME) :
    readCats (update_statistics s d) k = readCats s k := by
  have hkeyM : ∀ r : CatRow, keyPred k r = true → keepM d r = true := by
    intro r hr
    simp only [keyPred, decide_eq_true_eq] at hr
    simp only [keepM, Bool.not_eq_eq_eq_not, Bool.not_true, decide_eq_false_iff_not,
      not_and]
    intro ha hb
    refine absurd ?_ h1
    cases k
    cases hr.1
    cases hr.2
    simp [monthlyKey, ha, hb]
  have hkeyY : ∀ r : CatRow, keyPred k r = true → keepY d r = true := by
    intro r hr
    simp only [keyPred, decide_eq_true_eq] at hr
    simp only [keepY, Bool.not_eq_eq_eq_not, Bool.not_true, decide_eq_false_iff_not,
      not_and]
    intro ha hb
    refine absurd ?_ h2
    cases k
    cases hr.1
    cases hr.2
    simp [yearlyKey, ha, hb]
  have hkeyA : ∀ r : CatRow, keyPred k r = true → keepA r = true := by
    intro r hr
    simp only [keyPred, decide_eq_true_eq] at hr
    simp only [keepA, Bool.not_eq_eq_eq_not, Bool.not_true, decide_eq_false_iff_not]
    rw [hr.1]
    exact h3
  have hgM : (guardedRows .MONTHLY (some (monthEnd d))
      (calculate_category_statistics s.ledger .MONTHLY d)).filter (keyPred k) = [] := by
    refine guardedRows_filter_none _ fun r ha hb => ?_
    simp only [keyPred, decide_eq_false_iff_not, not_and]
    intro hc hd
    refine absurd ?_ h1
    cases k
    cases hc
    cases hd
    simp only at ha hb
    simp [monthlyKey, ha, hb]
  have hgY : (guardedRows .YEARLY (some (yearEnd d))
      (calculate_category_statistics s.ledger .YEARLY d)).filter (keyPred k) = [] := by
    refine guardedRows_filter_none _ fun r ha hb => ?_
    simp only [keyPred, decide_eq_false_iff_not, not_and]
    intro hc hd
    refine absurd ?_ h2
    cases k
    cases hc
    cases hd
    simp only at ha hb
    simp [yearlyKey, ha, hb]
  have hgA : (guardedRows .ALL_TIME none
      (calculate_category_statistics s.ledger .ALL_TIME noDate)).filter
        (keyPred k) = [] := by
    refine guardedRows_filter_none _ fun r ha _ => ?_
    simp only [keyPred, decide_eq_false_iff_not, not_and]
    intro hc
    exact absurd (hc ▸ ha) h3
  show (update_category_statistics s.ledger s.cats d).filter _ = _
  rw [update_cats_eq]
  simp only [List.filter_append]
  rw [filter_of_filter _ _ keepA hkeyA, filter_of_filter _ _ (keepY d) hkeyY,
    filter_of_filter _ _ (keepM d) hkeyM, hgM, hgY, hgA]
  simp [readCats]

end StateLemmas

section EmptyPeriod

theorem filter_false_eq_nil (L : List Transaction) (P : Transaction → Bool)
    (h : ∀ t ∈ L, P t = false) : L.filter P = [] :=
  List.filter_eq_nil_iff.mpr fun t ht => by rw [h t ht]; simp

theorem calc_zero_of_empty_period (L : List Transaction) (p : StatisticsPeriod)
    (d : MDate) (h : ∀ t ∈ L, periodFilter p d t = false) :
    (calculate_statistics L p d).period_income = 0 ∧
      (calculate_statistics L p d).period_expenses = 0 ∧
      (calculate_statistics L p d).income_count = 0 ∧
      (calculate_statistics L p d).expense_count = 0 := by
  have hf : L.filter (periodFilter p d) = [] := filter_false_eq_nil L _ h
  refine ⟨?_, ?_, ?_, ?_⟩
  · show incomeSum (L.filter (periodFilter p d)) = 0
    rw [hf]; rfl
  · show expenseSum (L.filter (periodFilter p d)) = 0
    rw [hf]; rfl
  · show incomeCount (L.filter (periodFilter p d)) = 0
    rw [hf]; rfl
  · show expenseCount (L.filter (periodFilter p d)) = 0
    rw [hf]; rfl

end EmptyPeriod

/-- C8: after an incremental update for any date, the Monthly, Yearly and
ALL_TIME overall rows for that date exist and hold the fresh recompute from
the current ledger (rows are overwritten, never deleted); and whenever a
row's own period window holds no ledger entry, its recomputed period fields
are all zero. -/
theorem empty_period_bucket_persists (s : State) (d : MDate) :
    (readOverall (update_statistics s d) (monthlyKey d) =
        some (calculate_statistics s.ledger .MONTHLY d) ∧
      readOverall (update_statistics s d) (yearlyKey d) =
        some (calculate_statistics s.ledger .YEARLY d) ∧
      readOverall (update_statistics s d) allTimeKey =
        some (calculate_statistics s.ledger .ALL_TIME noDate)) ∧
    ((∀ t ∈ s.ledger, periodFilter .MONTHLY d t = false) →
      (calculate_statistics s.ledger .MONTHLY d).period_income = 0 ∧
        (calculate_statistics s.ledger .MONTHLY d).period_expenses = 0 ∧
        (calculate_statistics s.ledger .MONTHLY d).income_count = 0 ∧
        (calculate_statistics s.ledger .MONTHLY d).expense_count = 0) ∧
    ((∀ t ∈ s.ledger, periodFilter .YEARLY d t = false) →
      (calculate_statistics s.ledger .YEARLY d).period_income = 0 ∧
        (calculate_statistics s.ledger .YEARLY d).period_expenses = 0 ∧
        (calculate_statistics s.ledger .YEARLY d).income_count = 0 ∧
        (calculate_statistics s.ledger .YEARLY d).expense_count = 0) ∧
    (s.ledger = [] →
      (calculate_statistics s.ledger .ALL_TIME noDate).period_income = 0 ∧
        (calculate_statistics s.ledger .ALL_TIME noDate).period_expenses = 0 ∧
        (calculate_statistics s.ledger .ALL_TIME noDate).income_count = 0 ∧
        (calculate_statistics s.ledger .ALL_TIME noDate).expense_count = 0) := by
  refine ⟨⟨readOverall_update_monthly s d, readOverall_update_yearly s d,
      readOverall_update_allTime s d⟩,
    calc_zero_of_empty_period s.ledger .MONTHLY d,
    calc_zero_of_empty_period s.ledger .YEARLY d,
    fun h => ?_⟩
  rw [h]
  exact ⟨rfl, rfl, rfl, rfl⟩

/-- C8 witness: a concrete run on a one-transaction ledger whose month
(February 2024) holds no entries: the Monthly bucket for 2024-02-29 exists
with zero period fields and the Yearly and ALL_TIME rows survive. -/
theorem empty_period_bucket_persists_witness :
    (∀ t ∈ [Transaction.mk ⟨2023, 5, 2⟩ 10 .INCOME none (some .SALARY)],
        periodFilter .MONTHLY ⟨2024, 2, 10⟩ t = false) ∧
      (calculate_statistics [Transaction.mk ⟨2023, 5, 2⟩ 10 .INCOME none (some .SALARY)]
          .MONTHLY ⟨2024, 2, 10⟩).period_income = 0 ∧
      (calculate_statistics [Transaction.mk ⟨2023, 5, 2⟩ 10 .INCOME none (some .SALARY)]
          .MONTHLY ⟨2024, 2, 10⟩).period_expenses = 0 ∧
      (calculate_statistics [Transaction.mk ⟨2023, 5, 2⟩ 10 .INCOME none (some .SALARY)]
          .MONTHLY ⟨2024, 2, 10⟩).income_count = 0 ∧
      (calculate_statistics [Transaction.mk ⟨2023, 5, 2⟩ 10 .INCOME none (some .SALARY)]
          .MONTHLY ⟨2024, 2, 10⟩).expense_count = 0 ∧
      readOverall
          (update_statistics
            { ledger := [Transaction.mk ⟨2023, 5, 2⟩ 10 .INCOME none (some .SALARY)],
              overall := fun _ => none, cats := [] } ⟨2024, 2, 10⟩)
          (monthlyKey ⟨2024, 2, 10⟩) =
        some (calculate_statistics
          [Transaction.mk ⟨2023, 5, 2⟩ 10 .INCOME none (some .SALARY)]
          .MONTHLY ⟨2024, 2, 10⟩) := by
  have h0 : ∀ t ∈ [Transaction.mk ⟨2023, 5, 2⟩ 10 .INCOME none (some .SALARY)],
      periodFilter .MONTHLY ⟨2024, 2, 10⟩ t = false := by decide
  have h := empty_period_bucket_persists
    { ledger := [Transaction.mk ⟨2023, 5, 2⟩ 10 .INCOME none (some .SALARY)],
      overall := fun _ => none, cats := [] } ⟨2024, 2, 10⟩
  exact ⟨h0, (h.2.1 h0).1, (h.2.1 h0).2.1, (h.2.1 h0).2.2.1, (h.2.1 h0).2.2.2, h.1.1⟩

/-- C7: the persisted-rows invariant: an update preserves the absence of
zero-count category rows, and a full rebuild establishes it from any prior
state. -/
theorem no_zero_count_category_rows (s : State) (d : MDate)
    (h : ∀ r ∈ s.cats, r.snap.period_transaction_count ≠ 0) :
    (∀ r ∈ (update_statistics s d).cats, r.snap.period_transaction_count ≠ 0) ∧
      (∀ s2 : State, ∀ r ∈ (rebuildAll s2).cats,
        r.snap.period_transaction_count ≠ 0) := by
  constructor
  · intro r hr
    replace hr : r ∈ update_category_statistics s.ledger s.cats d := hr
    rw [update_cats_eq] at hr
    rcases List.mem_append.mp hr with hr2 | hg
    · rcases List.mem_append.mp hr2 with hr3 | hg
      · rcases List.mem_append.mp hr3 with hr4 | hg
        · exact h r (List.mem_of_mem_filter (List.mem_of_mem_filter
            (List.mem_of_mem_filter hr4)))
        · exact (mem_guardedRows hg).2.2.2
      · exact (mem_guardedRows hg).2.2.2
    · exact (mem_guardedRows hg).2.2.2
  · intro s2 r hr
    have hr2 : r ∈ initCatsYears s2.ledger ++ guardedRows .ALL_TIME none
        (calculate_category_statistics s2.ledger .ALL_TIME noDate) := hr
    rcases List.mem_append.mp hr2 with hy | hg
    · simp only [initCatsYears, foldl_append_eq] at hy
      rcases List.mem_append.mp hy with hm | hfl
      · simp only [initCatsMonths, foldl_append_eq, List.nil_append] at hm
        rcases List.mem_flatten.mp hm with ⟨block, hb, hrb⟩
        rcases List.mem_map.mp hb with ⟨ym, _, rfl⟩
        exact (mem_guardedRows hrb).2.2.2
      · rcases List.mem_flatten.mp hfl with ⟨block, hb, hrb⟩
        rcases List.mem_map.mp hb with ⟨y, _, rfl⟩
        exact (mem_guardedRows hrb).2.2.2
    · exact (mem_guardedRows hg).2.2.2

/-- C7 witness: starting from the empty store (vacuously satisfying the
invariant), one update leaves no zero-count category row. -/
theorem no_zero_count_category_rows_witness :
    (∀ r ∈ emptyState.cats, r.snap.period_transaction_count ≠ 0) ∧
      (∀ r ∈ (update_statistics emptyState ⟨2023, 3, 5⟩).cats,
        r.snap.period_transaction_count ≠ 0) :=
  ⟨by simp [emptyState],
    (no_zero_count_category_rows emptyState ⟨2023, 3, 5⟩
      (by simp [emptyState])).1⟩

theorem update_category_statistics_idem (L : List Transaction) (cats : List CatRow)
    (d : MDate) :
    update_category_statistics L (update_category_statistics L cats d) d =
      update_category_statistics L cats d := by
  rw [update_cats_eq L cats d, update_cats_eq]
  have hDM : (((cats.filter (keepM d)).filter (keepY d)).filter keepA).filter (keepM d) =
      ((cats.filter (keepM d)).filter (keepY d)).filter keepA :=
    List.filter_eq_self.mpr fun r hr =>
      (List.mem_filter.mp (List.mem_of_mem_filter (List.mem_of_mem_filter hr))).2
  have hDY : (((cats.filter (keepM d)).filter (keepY d)).filter keepA).filter (keepY d) =
      ((cats.filter (keepM d)).filter (keepY d)).filter keepA :=
    List.filter_eq_self.mpr fun r hr =>
      (List.mem_filter.mp (List.mem_of_mem_filter hr)).2
  have hDA : (((cats.filter (keepM d)).filter (keepY d)).filter keepA).filter keepA =
      ((cats.filter (keepM d)).filter (keepY d)).filter keepA :=
    List.filter_eq_self.mpr fun r hr => (List.mem_filter.mp hr).2
  have hMM : (guardedRows .MONTHLY (some (monthEnd d))
      (calculate_category_statistics L .MONTHLY d)).filter (keepM d) = [] :=
    guardedRows_filter_none _ fun r h1 h2 => by simp [keepM, h1, h2]
  have hYM : (guardedRows .YEARLY (some (yearEnd d))
      (calculate_category_statistics L .YEARLY d)).filter (keepM d) =
      guardedRows .YEARLY (some (yearEnd d))
        (calculate_category_statistics L .YEARLY d) :=
    guardedRows_filter_all _ fun r h1 _ => by simp [keepM, h1]
  have hAM : (guardedRows .ALL_TIME none
      (calculate_category_statistics L .ALL_TIME noDate)).filter (keepM d) =
      guardedRows .ALL_TIME none
        (calculate_category_statistics L .ALL_TIME noDate) :=
    guardedRows_filter_all _ fun r h1 _ => by simp [keepM, h1]
  have hYY : (guardedRows .YEARLY (some (yearEnd d))
      (calculate_category_statistics L .YEARLY d)).filter (keepY d) = [] :=
    guardedRows_filter_none _ fun r h1 h2 => by simp [keepY, h1, h2]
  have hAY : (guardedRows .ALL_TIME none
      (calculate_category_statistics L .ALL_TIME noDate)).filter (keepY d) =
      guardedRows .ALL_TIME none
        (calculate_category_statistics L .ALL_TIME noDate) :=
    guardedRows_filter_all _ fun r h1 _ => by simp [keepY, h1]
  have hAA : (guardedRows .ALL_TIME none
      (calculate_category_statistics L .ALL_TIME noDate)).filter keepA = [] :=
    guardedRows_filter_none _ fun r h1 _ => by simp [keepA, h1]
  simp only [List.filter_append, hDM, hDY, hDA, hMM, hYM, hAM, hYY, hAY, hAA,
    List.append_nil, List.nil_append]

/-- C5: running the incremental coordinator twice in a row for the same date
with no intervening ledger change is a no-op on bucket state: every overall
row reads the same and the category table is unchanged after the second
call. -/
theorem update_statistics_idempotent (s : State) (d : MDate) :
    (∀ k, readOverall (update_statistics (update_statistics s d) d) k =
        readOverall (update_statistics s d) k) ∧
      (update_statistics (update_statistics s d) d).cats =
        (update_statistics s d).cats := by
  constructor
  · intro k
    by_cases hA : k = allTimeKey
    · subst hA
      rw [readOverall_update_allTime, readOverall_update_allTime]
      rfl
    · by_cases hY : k = yearlyKey d
      · subst hY
        rw [readOverall_update_yearly, readOverall_update_yearly]
        rfl
      · by_cases hM : k = monthlyKey d
        · subst hM
          rw [readOverall_update_monthly, readOverall_update_monthly]
          rfl
        · rw [readOverall_update_other (update_statistics s d) d k hM hY hA,
            readOverall_update_other s d k hM hY hA]
  · exact update_category_statistics_idem s.ledger s.cats d

/-- C6 witness: on the empty ledger every denominator is zero and every
derived ratio evaluates to 0, including the period percentage of a concrete
category snapshot. -/
theorem ratios_total_on_zero_denominators_witness :
    (calculate_statistics [] .MONTHLY ⟨2023, 1, 15⟩).period_income = 0 ∧
      (calculate_statistics [] .MONTHLY ⟨2023, 1, 15⟩).savings_rate = 0 ∧
      (calculate_statistics [] .MONTHLY ⟨2023, 1, 15⟩).income_count = 0 ∧
      (calculate_statistics [] .MONTHLY ⟨2023, 1, 15⟩).average_income = 0 ∧
      (calculate_statistics [] .MONTHLY ⟨2023, 1, 15⟩).expense_count = 0 ∧
      (calculate_statistics [] .MONTHLY ⟨2023, 1, 15⟩).average_expense = 0 ∧
      expenseCategorySnapshot [] .MONTHLY ⟨2023, 1, 15⟩ .HOUSING ∈
        calculate_category_statistics [] .MONTHLY ⟨2023, 1, 15⟩ ∧
      period_expense_total [] .MONTHLY ⟨2023, 1, 15⟩ = 0 ∧
      (expenseCategorySnapshot [] .MONTHLY ⟨2023, 1, 15⟩ .HOUSING).period_percentage = 0 := by
  have h := ratios_total_on_zero_denominators [] .MONTHLY ⟨2023, 1, 15⟩
  have hmem : expenseCategorySnapshot [] .MONTHLY ⟨2023, 1, 15⟩ .HOUSING ∈
      calculate_category_statistics [] .MONTHLY ⟨2023, 1, 15⟩ :=
    List.mem_append.mpr (Or.inl (List.mem_map.mpr
      ⟨.HOUSING, by decide, rfl⟩))
  refine ⟨rfl, h.1 rfl, rfl, h.2.1 rfl, rfl, h.2.2.1 rfl, hmem, rfl, ?_⟩
  exact (h.2.2.2 _ hmem).1 rfl rfl

/-- C10 witness: a TRANSFER of -30 inside March 2023 is counted as an
expense of 30 by the monthly aggregation. -/
theorem non_income_counted_as_expense_witness :
    (Transaction.mk ⟨2023, 3, 5⟩ (-30) .TRANSFER (some .INTERNAL_TRANSFER)
        none).transaction_type ≠ .INCOME ∧
      periodFilter .MONTHLY ⟨2023, 3, 5⟩
        (Transaction.mk ⟨2023, 3, 5⟩ (-30) .TRANSFER (some .INTERNAL_TRANSFER)
          none) = true ∧
      dateLe ⟨2023, 3, 5⟩ (monthEnd ⟨2023, 3, 5⟩) = true ∧
      (calculate_statistics
          [Transaction.mk ⟨2023, 3, 5⟩ (-30) .TRANSFER (some .INTERNAL_TRANSFER) none]
          .MONTHLY ⟨2023, 3, 5⟩).period_expenses =
        (calculate_statistics [] .MONTHLY ⟨2023, 3, 5⟩).period_expenses +
          |(-30 : ℚ)| ∧
      (calculate_statistics
          [Transaction.mk ⟨2023, 3, 5⟩ (-30) .TRANSFER (some .INTERNAL_TRANSFER) none]
          .MONTHLY ⟨2023, 3, 5⟩).expense_count =
        (calculate_statistics [] .MONTHLY ⟨2023, 3, 5⟩).expense_count + 1 := by
  refine ⟨by decide, by decide, by decide, ?_, ?_⟩
  · exact (non_income_counted_as_expense [] _ _ (by decide) (by decide) (by decide)).1
  · exact (non_income_counted_as_expense [] _ _ (by decide) (by decide) (by decide)).2.1

section PartitionLemmas

theorem cat_partition {κ : Type} [DecidableEq κ] (cats : List κ)
    (hcount : ∀ c : κ, cats.count c = 1) (L : List Transaction)
    (P : Transaction → Bool) (proj : Transaction → Option κ) (w : Transaction → ℚ) :
    (cats.map (fun c =>
        ((L.filter (fun t => decide (proj t = some c) && P t)).map w).sum)).sum =
      ((L.filter (fun t => (proj t).isSome && P t)).map w).sum := by
  induction L with
  | nil => simp [sum_map_zero cats]
  | cons t L ih =>
    by_cases h2 : P t = true
    · cases h1 : proj t with
      | none =>
        have hL : ∀ c : κ, (t :: L).filter (fun x => decide (proj x = some c) && P x) =
            L.filter (fun x => decide (proj x = some c) && P x) := by
          intro c
          simp [List.filter_cons, h1]
        simp only [hL]
        rw [ih]
        simp [List.filter_cons, h1]
      | some c0 =>
        have hL : ∀ c : κ, (t :: L).filter (fun x => decide (proj x = some c) && P x) =
            if c0 = c then t :: L.filter (fun x => decide (proj x = some c) && P x)
            else L.filter (fun x => decide (proj x = some c) && P x) := by
          intro c
          by_cases hc : c0 = c
          · simp [List.filter_cons, h1, hc, h2]
          · simp [List.filter_cons, h1, hc]
        simp only [hL]
        have hpush : ∀ c : κ,
            (((if c0 = c then t :: L.filter (fun x => decide (proj x = some c) && P x)
                else L.filter (fun x => decide (proj x = some c) && P x)).map w).sum) =
            (if c0 = c then w t else 0) +
              ((L.filter (fun x => decide (proj x = some c) && P x)).map w).sum := by
          intro c
          by_cases hc : c0 = c <;> simp [hc]
        simp only [hpush]
        rw [sum_map_add cats (fun c => if c0 = c then w t else 0)
          (fun c => ((L.filter (fun x => decide (proj x = some c) && P x)).map w).sum)]
        rw [sum_map_ite_count_one cats c0 (w t) (hcount c0), ih]
        simp [List.filter_cons, h1, h2]
    · have hL : ∀ c : κ, (t :: L).filter (fun x => decide (proj x = some c) && P x) =
          L.filter (fun x => decide (proj x = some c) && P x) := by
        intro c
        simp [List.filter_cons, h2]
      simp only [hL]
      rw [ih]
      simp [List.filter_cons, h2]

theorem expenseSum_filter (L : List Transaction) (P : Transaction → Bool) :
    expenseSum (L.filter P) =
      ((L.filter (fun t => !decide (t.transaction_type = .INCOME) && P t)).map
        (fun t => |t.amount|)).sum := by
  induction L with
  | nil => rfl
  | cons t L ih =>
    by_cases hP : P t = true
    · by_cases hI : t.transaction_type = .INCOME <;>
        simp [List.filter_cons, hP, hI, expenseSum, ih] <;>
        simp [expenseSum] at ih <;> simp [ih]
    · simp [List.filter_cons, hP, ih]

theorem incomeSum_filter (L : List Transaction) (P : Transaction → Bool) :
    incomeSum (L.filter P) =
      ((L.filter (fun t => decide (t.transaction_type = .INCOME) && P t)).map
        (fun t => t.amount)).sum := by
  induction L with
  | nil => rfl
  | cons t L ih =>
    by_cases hP : P t = true
    · by_cases hI : t.transaction_type = .INCOME <;>
        simp [List.filter_cons, hP, hI, incomeSum, ih] <;>
        simp [incomeSum] at ih <;> simp [ih]
    · simp [List.filter_cons, hP, ih]

end PartitionLemmas

section SnapshotSums

theorem calcCat_count_zero_amount (L : List Transaction) (p : StatisticsPeriod)
    (d : MDate) :
    ∀ c ∈ calculate_category_statistics L p d,
      c.period_transaction_count = 0 → c.period_amount = 0 := by
  intro c hc h0
  rcases List.mem_append.mp hc with hm | hm
  · rcases List.mem_map.mp hm with ⟨cat, _, rfl⟩
    have hlen : (L.filter (fun t =>
        decide (t.expense_category = some cat) && periodFilter p d t)).length = 0 := h0
    have hnil := List.length_eq_zero.mp hlen
    show absSum (L.filter (fun t =>
      decide (t.expense_category = some cat) && periodFilter p d t)) = 0
    rw [hnil]
    rfl
  · rcases List.mem_map.mp hm with ⟨cat, _, rfl⟩
    have hlen : (L.filter (fun t =>
        decide (t.income_category = some cat) && periodFilter p d t)).length = 0 := h0
    have hnil := List.length_eq_zero.mp hlen
    show signedSum (L.filter (fun t =>
      decide (t.income_category = some cat) && periodFilter p d t)) = 0
    rw [hnil]
    rfl

theorem sum_map_filter_of_zero {α : Type} (l : List α) (p : α → Bool) (f : α → ℚ)
    (h : ∀ a ∈ l, p a = false → f a = 0) :
    ((l.filter p).map f).sum = (l.map f).sum := by
  induction l with
  | nil => rfl
  | cons a l ih =>
    have ihl : ((l.filter p).map f).sum = (l.map f).sum :=
      ih fun x hx => h x (List.mem_cons_of_mem a hx)
    by_cases hp : p a = true
    · simp [List.filter_cons, hp, ihl]
    · have hz : f a = 0 := h a (List.mem_cons_self a l) (Bool.eq_false_iff.mpr hp)
      simp [List.filter_cons, hp, ihl, hz]

theorem snapKindSum_guard (snaps : List CategorySnapshot) (kind : TransactionType)
    (h : ∀ c ∈ snaps, c.period_transaction_count = 0 → c.period_amount = 0) :
    snapKindSum (snaps.filter (fun c => decide (c.period_transaction_count > 0)))
        kind =
      snapKindSum snaps kind := by
  show (((snaps.filter _).filter _).map _).sum = _
  rw [List.filter_comm]
  refine sum_map_filter_of_zero _ _ _ fun c hc hp => ?_
  have h0 : c.period_transaction_count = 0 := by
    have hh : ¬ 0 < c.period_transaction_count := by simpa using hp
    omega
  exact h c (List.mem_of_mem_filter hc) h0

theorem snapKindSum_calcCat_expense (L : List Transaction) (p : StatisticsPeriod)
    (d : MDate) :
    snapKindSum (calculate_category_statistics L p d) .EXPENSE =
      (ExpenseCategory.all.map
        (fun c => (expenseCategorySnapshot L p d c).period_amount)).sum := by
  show (((ExpenseCategory.all.map (expenseCategorySnapshot L p d) ++
      IncomeCategory.all.map (incomeCategorySnapshot L p d)).filter
        (fun c => decide (c.transaction_type = .EXPENSE))).map
          (fun c => c.period_amount)).sum = _
  rw [List.filter_append, List.filter_map, List.filter_map]
  have he : ExpenseCategory.all.filter
      ((fun c => decide (c.transaction_type = .EXPENSE)) ∘
        expenseCategorySnapshot L p d) = ExpenseCategory.all :=
    List.filter_eq_self.mpr fun c _ => by
      simp [Function.comp, expenseCategorySnapshot]
  have hi : IncomeCategory.all.filter
      ((fun c => decide (c.transaction_type = .EXPENSE)) ∘
        incomeCategorySnapshot L p d) = [] :=
    List.filter_eq_nil_iff.mpr fun c _ => by
      simp [Function.comp, incomeCategorySnapshot]
  rw [he, hi]
  simp only [List.map_map, List.map_nil, List.append_nil]
  rfl

theorem snapKindSum_calcCat_income (L : List Transaction) (p : StatisticsPeriod)
    (d : MDate) :
    snapKindSum (calculate_category_statistics L p d) .INCOME =
      (IncomeCategory.all.map
        (fun c => (incomeCategorySnapshot L p d c).period_amount)).sum := by
  show (((ExpenseCategory.all.map (expenseCategorySnapshot L p d) ++
      IncomeCategory.all.map (incomeCategorySnapshot L p d)).filter
        (fun c => decide (c.transaction_type = .INCOME))).map
          (fun c => c.period_amount)).sum = _
  rw [List.filter_append, List.filter_map, List.filter_map]
  have he : ExpenseCategory.all.filter
      ((fun c => decide (c.transaction_type = .INCOME)) ∘
        expenseCategorySnapshot L p d) = [] :=
    List.filter_eq_nil_iff.mpr fun c _ => by
      simp [Function.comp, expenseCategorySnapshot]
  have hi : IncomeCategory.all.filter
      ((fun c => decide (c.transaction_type = .INCOME)) ∘
        incomeCategorySnapshot L p d) = IncomeCategory.all :=
    List.filter_eq_self.mpr fun c _ => by
      simp [Function.comp, incomeCategorySnapshot]
  rw [he, hi]
  simp only [List.map_map, List.map_nil, List.nil_append]
  rfl

theorem engine_additivity_expense (L : List Transaction) (p : StatisticsPeriod)
    (d : MDate)
    (hexp : ∀ t ∈ L, t.expense_category.isSome ↔ t.transaction_type ≠ .INCOME) :
    (ExpenseCategory.all.map
        (fun c => (expenseCategorySnapshot L p d c).period_amount)).sum =
      (calculate_statistics L p d).period_expenses := by
  show (ExpenseCategory.all.map (fun c =>
      ((L.filter (fun t => decide (t.expense_category = some c) &&
        periodFilter p d t)).map (fun t => |t.amount|)).sum)).sum =
    expenseSum (L.filter (periodFilter p d))
  rw [cat_partition ExpenseCategory.all expenseCategory_count_one L
    (periodFilter p d) (fun t => t.expense_category) (fun t => |t.amount|)]
  rw [expenseSum_filter]
  have hfc : L.filter (fun t => (t.expense_category).isSome && periodFilter p d t) =
      L.filter (fun t => !decide (t.transaction_type = .INCOME) &&
        periodFilter p d t) :=
    List.filter_congr fun t ht => by
      have h := hexp t ht
      by_cases hI : t.transaction_type = .INCOME <;>
        by_cases hS : t.expense_category.isSome <;> simp_all
  rw [hfc]

theorem engine_additivity_income (L : List Transaction) (p : StatisticsPeriod)
    (d : MDate)
    (hinc : ∀ t ∈ L, t.income_category.isSome ↔ t.transaction_type = .INCOME) :
    (IncomeCategory.all.map
        (fun c => (incomeCategorySnapshot L p d c).period_amount)).sum =
      (calculate_statistics L p d).period_income := by
  show (IncomeCategory.all.map (fun c =>
      ((L.filter (fun t => decide (t.income_category = some c) &&
        periodFilter p d t)).map (fun t => t.amount)).sum)).sum =
    incomeSum (L.filter (periodFilter p d))
  rw [cat_partition IncomeCategory.all incomeCategory_count_one L
    (periodFilter p d) (fun t => t.income_category) (fun t => t.amount)]
  rw [incomeSum_filter]
  have hfc : L.filter (fun t => (t.income_category).isSome && periodFilter p d t) =
      L.filter (fun t => decide (t.transaction_type = .INCOME) &&
        periodFilter p d t) :=
    List.filter_congr fun t ht => by
      have h := hinc t ht
      by_cases hI : t.transaction_type = .INCOME <;>
        by_cases hS : t.income_category.isSome <;> simp_all
  rw [hfc]

theorem guardedRows_map_snap (p : StatisticsPeriod) (dt : Option MDate)
    (snaps : List CategorySnapshot) :
    (guardedRows p dt snaps).map (fun r => r.snap) =
      snaps.filter (fun c => decide (c.period_transaction_count > 0)) := by
  show ((snaps.filter _).map _).map _ = _
  rw [List.map_map]
  have hid : ((fun (r : CatRow) => r.snap) ∘ fun c => CatRow.mk p dt c) = id := rfl
  rw [hid, List.map_id]

end SnapshotSums

section AdditivityAssembly

theorem catKindSum_update_monthly (s : State) (d : MDate) (kind : TransactionType) :
    catKindSum (update_statistics s d) (monthlyKey d) kind =
      snapKindSum ((calculate_category_statistics s.ledger .MONTHLY d).filter
        (fun c => decide (c.period_transaction_count > 0))) kind := by
  show snapKindSum ((readCats (update_statistics s d) (monthlyKey d)).map
    (fun r => r.snap)) kind = _
  rw [readCats_update_monthly, guardedRows_map_snap]

theorem catKindSum_update_yearly (s : State) (d : MDate) (kind : TransactionType) :
    catKindSum (update_statistics s d) (yearlyKey d) kind =
      snapKindSum ((calculate_category_statistics s.ledger .YEARLY d).filter
        (fun c => decide (c.period_transaction_count > 0))) kind := by
  show snapKindSum ((readCats (update_statistics s d) (yearlyKey d)).map
    (fun r => r.snap)) kind = _
  rw [readCats_update_yearly, guardedRows_map_snap]

theorem catKindSum_update_allTime (s : State) (d : MDate) (kind : TransactionType) :
    catKindSum (update_statistics s d) allTimeKey kind =
      snapKindSum ((calculate_category_statistics s.ledger .ALL_TIME noDate).filter
        (fun c => decide (c.period_transaction_count > 0))) kind := by
  show snapKindSum ((readCats (update_statistics s d) allTimeKey).map
    (fun r => r.snap)) kind = _
  rw [readCats_update_allTime, guardedRows_map_snap]

theorem bucket_additivity (L : List Transaction) (p : StatisticsPeriod) (d : MDate)
    (hexp : ∀ t ∈ L, t.expense_category.isSome ↔ t.transaction_type ≠ .INCOME)
    (hinc : ∀ t ∈ L, t.income_category.isSome ↔ t.transaction_type = .INCOME) :
    snapKindSum ((calculate_category_statistics L p d).filter
        (fun c => decide (c.period_transaction_count > 0))) .EXPENSE =
      (calculate_statistics L p d).period_expenses ∧
    snapKindSum ((calculate_category_statistics L p d).filter
        (fun c => decide (c.period_transaction_count > 0))) .INCOME =
      (calculate_statistics L p d).period_income := by
  constructor
  · rw [snapKindSum_guard _ _ (calcCat_count_zero_amount L p d),
      snapKindSum_calcCat_expense, engine_additivity_expense L p d hexp]
  · rw [snapKindSum_guard _ _ (calcCat_count_zero_amount L p d),
      snapKindSum_calcCat_income, engine_additivity_income L p d hinc]

end AdditivityAssembly

set_option maxRecDepth 400000 in
/-- C2 counterexample: an EXPENSE of -50 carrying no category label. After
the update the overall Monthly bucket records 50 of period expenses, but no
category row exists, so the per-kind category sum is 0; the difference of 50
is far outside the 1e-6 tolerance, refuting additivity for ledgers with
uncategorized (or kind-inconsistently categorized) transactions. -/
theorem additivity_fails_uncategorized :
    catKindSum
        (update_statistics
          { ledger := [Transaction.mk ⟨2023, 3, 5⟩ (-50) .EXPENSE none none],
            overall := fun _ => none, cats := [] } ⟨2023, 3, 5⟩)
        (monthlyKey ⟨2023, 3, 5⟩) .EXPENSE = 0 ∧
      (readOverall
          (update_statistics
            { ledger := [Transaction.mk ⟨2023, 3, 5⟩ (-50) .EXPENSE none none],
              overall := fun _ => none, cats := [] } ⟨2023, 3, 5⟩)
          (monthlyKey ⟨2023, 3, 5⟩)).map (fun o => o.period_expenses) =
        some 50 ∧
      ¬ |(0 : ℚ) - 50| ≤ 1 / 1000000 := by
  refine ⟨?_, ?_, by norm_num⟩
  · with_unfolding_all decide
  · with_unfolding_all decide

/-- C2 amended: after an update for any date, additivity — the per-kind sum
of the persisted category rows of a bucket equals the persisted overall
row's period total for that kind (here exactly, hence within 1e-6) — holds
at the three recomputed keys, and is preserved at every other non-ALL_TIME
key, provided every ledger transaction carries an expense category exactly
when its type is not INCOME and an income category exactly when its type is
INCOME. (The unamended claim fails for uncategorized transactions.) -/
theorem additivity_for_categorized_ledgers (s : State) (d : MDate)
    (hexp : ∀ t ∈ s.ledger, t.expense_category.isSome ↔
      t.transaction_type ≠ .INCOME)
    (hinc : ∀ t ∈ s.ledger, t.income_category.isSome ↔
      t.transaction_type = .INCOME) :
    additivityAt (update_statistics s d) (monthlyKey d) ∧
      additivityAt (update_statistics s d) (yearlyKey d) ∧
      additivityAt (update_statistics s d) allTimeKey ∧
      (∀ k, k ≠ monthlyKey d → k ≠ yearlyKey d → k.period ≠ .ALL_TIME →
        additivityAt s k → additivityAt (update_statistics s d) k) := by
  refine ⟨?_, ?_, ?_, ?_⟩
  · intro o ho
    rw [readOverall_update_monthly] at ho
    cases Option.some.inj ho
    rw [catKindSum_update_monthly, catKindSum_update_monthly]
    exact bucket_additivity s.ledger .MONTHLY d hexp hinc
  · intro o ho
    rw [readOverall_update_yearly] at ho
    cases Option.some.inj ho
    rw [catKindSum_update_yearly, catKindSum_update_yearly]
    exact bucket_additivity s.ledger .YEARLY d hexp hinc
  · intro o ho
    rw [readOverall_update_allTime] at ho
    cases Option.some.inj ho
    rw [catKindSum_update_allTime, catKindSum_update_allTime]
    exact bucket_additivity s.ledger .ALL_TIME noDate hexp hinc
  · intro k h1 h2 h3 hadd o ho
    have hA : k ≠ allTimeKey := fun he => h3 (by rw [he]; rfl)
    rw [readOverall_update_other s d k h1 h2 hA] at ho
    have hc : ∀ kind, catKindSum (update_statistics s d) k kind =
        catKindSum s k kind := by
      intro kind
      show snapKindSum ((readCats (update_statistics s d) k).map
        (fun r => r.snap)) kind = _
      rw [readCats_update_other s d k h1 h2 h3]
      rfl
    rw [hc, hc]
    exact hadd o ho

/-- C2 witness: a fully categorized two-transaction ledger (an income with
an income category and an expense with an expense category) satisfies the
categorization hypotheses, and additivity holds at the monthly bucket after
the update. -/
theorem additivity_for_categorized_ledgers_witness :
    (∀ t ∈ [Transaction.mk ⟨2023, 3, 5⟩ 1000 .INCOME none (some .SALARY),
        Transaction.mk ⟨2023, 3, 10⟩ (-50) .EXPENSE (some .GROCERIES) none],
      t.expense_category.isSome ↔ t.transaction_type ≠ .INCOME) ∧
    (∀ t ∈ [Transaction.mk ⟨2023, 3, 5⟩ 1000 .INCOME none (some .SALARY),
        Transaction.mk ⟨2023, 3, 10⟩ (-50) .EXPENSE (some .GROCERIES) none],
      t.income_category.isSome ↔ t.transaction_type = .INCOME) ∧
    additivityAt
      (update_statistics
        { ledger := [Transaction.mk ⟨2023, 3, 5⟩ 1000 .INCOME none (some .SALARY),
            Transaction.mk ⟨2023, 3, 10⟩ (-50) .EXPENSE (some .GROCERIES) none],
          overall := fun _ => none, cats := [] } ⟨2023, 3, 5⟩)
      (monthlyKey ⟨2023, 3, 5⟩) :=
  ⟨by decide, by decide,
    (additivity_for_categorized_ledgers
      { ledger := [Transaction.mk ⟨2023, 3, 5⟩ 1000 .INCOME none (some .SALARY),
          Transaction.mk ⟨2023, 3, 10⟩ (-50) .EXPENSE (some .GROCERIES) none],
        overall := fun _ => none, cats := [] } ⟨2023, 3, 5⟩
      (by decide) (by decide)).1⟩

section RebuildLemmas

theorem foldl_updFun_ne {α : Type} (l : List α) (key : α → OKey)
    (val : α → OverallStats) (f : OKey → Option OverallStats) (k : OKey)
    (h : ∀ x ∈ l, key x ≠ k) :
    (l.foldl (fun g x => updFun g (key x) (val x)) f) k = f k := by
  induction l generalizing f with
  | nil => rfl
  | cons a l ih =>
    rw [List.foldl_cons, ih _ fun x hx => h x (List.mem_cons_of_mem a hx)]
    have hk : ¬ k = key a := fun hk => h a (List.mem_cons_self a l) hk.symm
    simp [updFun, hk]

theorem foldl_updFun_mem {α : Type} (l : List α) (key : α → OKey)
    (val : α → OverallStats) (f : OKey → Option OverallStats) (x0 : α)
    (hmem : x0 ∈ l) (hnd : l.Nodup) (hinj : ∀ a b, key a = key b → a = b) :
    (l.foldl (fun g x => updFun g (key x) (val x)) f) (key x0) = some (val x0) := by
  induction l generalizing f with
  | nil => cases hmem
  | cons a l ih =>
    rw [List.foldl_cons]
    rcases List.mem_cons.mp hmem with rfl | hx
    · have hal : x0 ∉ l := (List.nodup_cons.mp hnd).1
      rw [foldl_updFun_ne l key val _ (key x0)
        fun x hx hk => hal (hinj x x0 hk ▸ hx)]
      simp [updFun]
    · exact ih _ hx (List.nodup_cons.mp hnd).2

theorem monthEndYM_inj (a b : Nat × Nat) (h : monthEndYM a = monthEndYM b) :
    a = b := by
  obtain ⟨a1, a2⟩ := a
  obtain ⟨b1, b2⟩ := b
  simp only [monthEndYM, MDate.mk.injEq] at h
  simp [h.1, h.2.1]

theorem yearEndY_inj (a b : Nat) (h : yearEndY a = yearEndY b) : a = b := by
  simp only [yearEndY, MDate.mk.injEq] at h
  exact h.1

theorem rebuild_overall_allTime (s : State) :
    readOverall (rebuildAll s) allTimeKey =
      some (calculate_statistics s.ledger .ALL_TIME noDate) := by
  show updFun (initOverallYears s.ledger) allTimeKey
    (calculate_statistics s.ledger .ALL_TIME noDate) allTimeKey = _
  simp [updFun]

theorem rebuild_overall_monthly (s : State) (ym : Nat × Nat)
    (h : ym ∈ monthsOf s.ledger) :
    readOverall (rebuildAll s) ⟨.MONTHLY, some (monthEndYM ym)⟩ =
      some (calculate_statistics s.ledger .MONTHLY (monthEndYM ym)) := by
  show updFun (initOverallYears s.ledger) allTimeKey
    (calculate_statistics s.ledger .ALL_TIME noDate)
    ⟨.MONTHLY, some (monthEndYM ym)⟩ = _
  have h1 : (⟨.MONTHLY, some (monthEndYM ym)⟩ : OKey) ≠ allTimeKey := by
    simp [allTimeKey]
  simp only [updFun, h1, if_neg, if_false]
  have h2 : initOverallYears s.ledger ⟨.MONTHLY, some (monthEndYM ym)⟩ =
      initOverallMonths s.ledger ⟨.MONTHLY, some (monthEndYM ym)⟩ :=
    foldl_updFun_ne (yearsOf s.ledger) (fun y => ⟨.YEARLY, some (yearEndY y)⟩)
      (fun y => calculate_statistics s.ledger .YEARLY (yearEndY y)) _ _
      (fun y _ hk => by simp at hk)
  rw [h2]
  exact foldl_updFun_mem (monthsOf s.ledger)
    (fun ym2 => ⟨.MONTHLY, some (monthEndYM ym2)⟩)
    (fun ym2 => calculate_statistics s.ledger .MONTHLY (monthEndYM ym2)) _ ym h
    (List.nodup_dedup _)
    (fun a b hab => monthEndYM_inj a b (by simpa using hab))

theorem rebuild_overall_yearly (s : State) (y : Nat) (h : y ∈ yearsOf s.ledger) :
    readOverall (rebuildAll s) ⟨.YEARLY, some (yearEndY y)⟩ =
      some (calculate_statistics s.ledger .YEARLY (yearEndY y)) := by
  show updFun (initOverallYears s.ledger) allTimeKey
    (calculate_statistics s.ledger .ALL_TIME noDate)
    ⟨.YEARLY, some (yearEndY y)⟩ = _
  have h1 : (⟨.YEARLY, some (yearEndY y)⟩ : OKey) ≠ allTimeKey := by
    simp [allTimeKey]
  simp only [updFun, h1, if_neg, if_false]
  exact foldl_updFun_mem (yearsOf s.ledger)
    (fun y2 => ⟨.YEARLY, some (yearEndY y2)⟩)
    (fun y2 => calculate_statistics s.ledger .YEARLY (yearEndY y2)) _ y h
    (List.nodup_dedup _)
    (fun a b hab => yearEndY_inj a b (by simpa using hab))

theorem flatten_map_nil {α β : Type} (l : List α) (g : α → List β)
    (h : ∀ x ∈ l, g x = []) : (l.map g).flatten = [] := by
  induction l with
  | nil => rfl
  | cons a l ih =>
    rw [List.map_cons, List.flatten_cons, h a (List.mem_cons_self a l),
      ih fun x hx => h x (List.mem_cons_of_mem a hx)]
    rfl

theorem flatten_map_single {α β : Type} (l : List α) (g : α → List β) (x0 : α)
    (hmem : x0 ∈ l) (hnd : l.Nodup) (hz : ∀ x ∈ l, x ≠ x0 → g x = []) :
    (l.map g).flatten = g x0 := by
  induction l with
  | nil => cases hmem
  | cons a l ih =>
    rw [List.map_cons, List.flatten_cons]
    rcases List.mem_cons.mp hmem with rfl | hx
    · have hal : x0 ∉ l := (List.nodup_cons.mp hnd).1
      rw [flatten_map_nil l g fun x hx2 => hz x (List.mem_cons_of_mem x0 hx2)
        fun he => hal (he ▸ hx2)]
      simp
    · have hax : a ≠ x0 := fun he => (List.nodup_cons.mp hnd).1 (he ▸ hx)
      rw [hz a (List.mem_cons_self a l) hax]
      rw [ih hx (List.nodup_cons.mp hnd).2
        fun x hx2 hne => hz x (List.mem_cons_of_mem a hx2) hne]
      rfl

theorem rebuild_cats_allTime (s : State) :
    readCats (rebuildAll s) allTimeKey =
      guardedRows .ALL_TIME none
        (calculate_category_statistics s.ledger .ALL_TIME noDate) := by
  show (initCatsYears s.ledger ++ guardedRows .ALL_TIME none
    (calculate_category_statistics s.ledger .ALL_TIME noDate)).filter
      (keyPred allTimeKey) = _
  rw [List.filter_append,
    guardedRows_filter_all (keyPred allTimeKey)
      (fun r h1 h2 => by simp [keyPred, allTimeKey, h1, h2])]
  have hy : (initCatsYears s.ledger).filter (keyPred allTimeKey) = [] := by
    simp only [initCatsYears, foldl_append_eq, initCatsMonths, List.nil_append]
    rw [List.filter_append, List.filter_flatten, List.filter_flatten,
      List.map_map, List.map_map]
    simp only [Function.comp_def]
    rw [flatten_map_nil (monthsOf s.ledger) _ fun ym _ =>
      guardedRows_filter_none (keyPred allTimeKey)
        (fun r h1 _ => by simp [keyPred, allTimeKey, h1])]
    rw [flatten_map_nil (yearsOf s.ledger) _ fun y _ =>
      guardedRows_filter_none (keyPred allTimeKey)
        (fun r h1 _ => by simp [keyPred, allTimeKey, h1])]
    rfl
  rw [hy]
  rfl

theorem rebuild_cats_monthly (s : State) (ym : Nat × Nat)
    (h : ym ∈ monthsOf s.ledger) :
    readCats (rebuildAll s) ⟨.MONTHLY, some (monthEndYM ym)⟩ =
      guardedRows .MONTHLY (some (monthEndYM ym))
        (calculate_category_statistics s.ledger .MONTHLY (monthEndYM ym)) := by
  show (initCatsYears s.ledger ++ guardedRows .ALL_TIME none
    (calculate_category_statistics s.ledger .ALL_TIME noDate)).filter
      (keyPred ⟨.MONTHLY, some (monthEndYM ym)⟩) = _
  rw [List.filter_append,
    guardedRows_filter_none (keyPred ⟨.MONTHLY, some (monthEndYM ym)⟩)
      (fun r h1 _ => by simp [keyPred, h1]),
    List.append_nil]
  simp only [initCatsYears, foldl_append_eq, initCatsMonths, List.nil_append]
  rw [List.filter_append, List.filter_flatten, List.filter_flatten,
    List.map_map, List.map_map]
  simp only [Function.comp_def]
  rw [flatten_map_nil (yearsOf s.ledger) _ fun y _ =>
    guardedRows_filter_none (keyPred ⟨.MONTHLY, some (monthEndYM ym)⟩)
      (fun r h1 _ => by simp [keyPred, h1])]
  rw [List.append_nil]
  rw [flatten_map_single (monthsOf s.ledger) _ ym h (List.nodup_dedup _)
    fun ym2 _ hne =>
      guardedRows_filter_none (keyPred ⟨.MONTHLY, some (monthEndYM ym)⟩)
        (fun r h1 h2 => by
          simp only [keyPred, h1, h2, decide_eq_false_iff_not, not_and,
            Option.some.injEq]
          exact fun _ he => hne (monthEndYM_inj ym2 ym he))]
  exact guardedRows_filter_all (keyPred ⟨.MONTHLY, some (monthEndYM ym)⟩)
    (fun r h1 h2 => by simp [keyPred, h1, h2])

theorem rebuild_cats_yearly (s : State) (y : Nat) (h : y ∈ yearsOf s.ledger) :
    readCats (rebuildAll s) ⟨.YEARLY, some (yearEndY y)⟩ =
      guardedRows .YEARLY (some (yearEndY y))
        (calculate_category_statistics s.ledger .YEARLY (yearEndY y)) := by
  show (initCatsYears s.ledger ++ guardedRows .ALL_TIME none
    (calculate_category_statistics s.ledger .ALL_TIME noDate)).filter
      (keyPred ⟨.YEARLY, some (yearEndY y)⟩) = _
  rw [List.filter_append,
    guardedRows_filter_none (keyPred ⟨.YEARLY, some (yearEndY y)⟩)
      (fun r h1 _ => by simp [keyPred, h1]),
    List.append_nil]
  simp only [initCatsYears, foldl_append_eq, initCatsMonths, List.nil_append]
  rw [List.filter_append, List.filter_flatten, List.filter_flatten,
    List.map_map, List.map_map]
  simp only [Function.comp_def]
  rw [flatten_map_nil (monthsOf s.ledger) _ fun ym2 _ =>
    guardedRows_filter_none (keyPred ⟨.YEARLY, some (yearEndY y)⟩)
      (fun r h1 _ => by simp [keyPred, h1])]
  rw [List.nil_append]
  rw [flatten_map_single (yearsOf s.ledger) _ y h (List.nodup_dedup _)
    fun y2 _ hne =>
      guardedRows_filter_none (keyPred ⟨.YEARLY, some (yearEndY y)⟩)
        (fun r h1 h2 => by
          simp only [keyPred, h1, h2, decide_eq_false_iff_not, not_and,
            Option.some.injEq]
          exact fun _ he => hne (yearEndY_inj y2 y he))]
  exact guardedRows_filter_all (keyPred ⟨.YEARLY, some (yearEndY y)⟩)
    (fun r h1 h2 => by simp [keyPred, h1, h2])

theorem replay_append_last (s0 : State) (ms : List Mutation) (m : Mutation) :
    replay s0 (ms ++ [m]) = step (replay s0 ms) m := by
  simp [replay, List.foldl_append]

theorem convergence_single (x : State) (d : MDate) :
    (readOverall (rebuildAll (update_statistics x d)) allTimeKey =
        readOverall (update_statistics x d) allTimeKey) ∧
      (readCats (rebuildAll (update_statistics x d)) allTimeKey =
        readCats (update_statistics x d) allTimeKey) ∧
      ((d.year, d.month) ∈ monthsOf x.ledger →
        readOverall (rebuildAll (update_statistics x d)) (monthlyKey d) =
            readOverall (update_statistics x d) (monthlyKey d) ∧
          readCats (rebuildAll (update_statistics x d)) (monthlyKey d) =
            readCats (update_statistics x d) (monthlyKey d)) ∧
      (d.year ∈ yearsOf x.ledger →
        readOverall (rebuildAll (update_statistics x d)) (yearlyKey d) =
            readOverall (update_statistics x d) (yearlyKey d) ∧
          readCats (rebuildAll (update_statistics x d)) (yearlyKey d) =
            readCats (update_statistics x d) (yearlyKey d)) := by
  refine ⟨?_, ?_, fun hm => ⟨?_, ?_⟩, fun hy => ⟨?_, ?_⟩⟩
  · exact (rebuild_overall_allTime (update_statistics x d)).trans
      (readOverall_update_allTime x d).symm
  · exact (rebuild_cats_allTime (update_statistics x d)).trans
      (readCats_update_allTime x d).symm
  · exact (rebuild_overall_monthly (update_statistics x d) (d.year, d.month) hm).trans
      (readOverall_update_monthly x d).symm
  · exact (rebuild_cats_monthly (update_statistics x d) (d.year, d.month) hm).trans
      (readCats_update_monthly x d).symm
  · exact (rebuild_overall_yearly (update_statistics x d) d.year hy).trans
      (readOverall_update_yearly x d).symm
  · exact (rebuild_cats_yearly (update_statistics x d) d.year hy).trans
      (readCats_update_yearly x d).symm

end RebuildLemmas

set_option maxRecDepth 1000000 in
/-- C1 counterexample: replay inserts income 100 in March 2023 and then
income 50 in January 2023. The final incremental update recomputes only the
January, 2023 and ALL_TIME buckets, so the March Monthly bucket keeps the
stale cumulative total_income 100, while the bulk rebuild from the same
ledger computes 150 (the January 50 lies before March 31): rebuild and
replay disagree on a cumulative field of a month other than the last mutated
one. -/
theorem convergence_fails_for_stale_month :
    (readOverall
        (replay emptyState
          [.ins (Transaction.mk ⟨2023, 3, 5⟩ 100 .INCOME none (some .SALARY)),
           .ins (Transaction.mk ⟨2023, 1, 10⟩ 50 .INCOME none (some .SALARY))])
        (monthlyKey ⟨2023, 3, 5⟩)).map (fun o => o.total_income) = some 100 ∧
      (readOverall
        (rebuildAll (replay emptyState
          [.ins (Transaction.mk ⟨2023, 3, 5⟩ 100 .INCOME none (some .SALARY)),
           .ins (Transaction.mk ⟨2023, 1, 10⟩ 50 .INCOME none (some .SALARY))]))
        (monthlyKey ⟨2023, 3, 5⟩)).map (fun o => o.total_income) = some 150 := by
  constructor
  · with_unfolding_all decide
  · with_unfolding_all decide

/-- C1 amended: after replaying any non-empty mutation sequence, the bulk
rebuild from the final ledger agrees with the incrementally maintained store
on the buckets the final coordinator run recomputed: the ALL_TIME overall
row and ALL_TIME category rows agree unconditionally, and the Monthly
(resp. Yearly) overall and category rows of the last mutated date agree
whenever that month (resp. year) still holds a ledger entry. Buckets of
other periods may retain stale cumulative and yearly fields (see the
counterexample), so the unamended all-bucket claim fails. -/
theorem convergence_on_recomputed_buckets (s0 : State) (ms : List Mutation)
    (m : Mutation) :
    (readOverall (rebuildAll (replay s0 (ms ++ [m]))) allTimeKey =
        readOverall (replay s0 (ms ++ [m])) allTimeKey) ∧
      (readCats (rebuildAll (replay s0 (ms ++ [m]))) allTimeKey =
        readCats (replay s0 (ms ++ [m])) allTimeKey) ∧
      (((mutDate m).year, (mutDate m).month) ∈
          monthsOf (replay s0 (ms ++ [m])).ledger →
        readOverall (rebuildAll (replay s0 (ms ++ [m])))
            (monthlyKey (mutDate m)) =
          readOverall (replay s0 (ms ++ [m])) (monthlyKey (mutDate m)) ∧
        readCats (rebuildAll (replay s0 (ms ++ [m]))) (monthlyKey (mutDate m)) =
          readCats (replay s0 (ms ++ [m])) (monthlyKey (mutDate m))) ∧
      ((mutDate m).year ∈ yearsOf (replay s0 (ms ++ [m])).ledger →
        readOverall (rebuildAll (replay s0 (ms ++ [m])))
            (yearlyKey (mutDate m)) =
          readOverall (replay s0 (ms ++ [m])) (yearlyKey (mutDate m)) ∧
        readCats (rebuildAll (replay s0 (ms ++ [m]))) (yearlyKey (mutDate m)) =
          readCats (replay s0 (ms ++ [m])) (yearlyKey (mutDate m))) := by
  rw [replay_append_last]
  exact convergence_single
    { replay s0 ms with ledger := applyMutation (replay s0 ms).ledger m }
    (mutDate m)

/-- C1 witness: a single insertion into the empty store; its month and year
are present in the final ledger and the recomputed Monthly and Yearly
buckets agree between replay and rebuild. -/
theorem convergence_on_recomputed_buckets_witness :
    ((2023, 3) ∈ monthsOf (replay emptyState
        ([] ++ [.ins (Transaction.mk ⟨2023, 3, 5⟩ 100 .INCOME none
          (some .SALARY))])).ledger) ∧
      (2023 ∈ yearsOf (replay emptyState
        ([] ++ [.ins (Transaction.mk ⟨2023, 3, 5⟩ 100 .INCOME none
          (some .SALARY))])).ledger) ∧
      readOverall
          (rebuildAll (replay emptyState
            ([] ++ [.ins (Transaction.mk ⟨2023, 3, 5⟩ 100 .INCOME none
              (some .SALARY))])))
          (monthlyKey ⟨2023, 3, 5⟩) =
        readOverall
          (replay emptyState
            ([] ++ [.ins (Transaction.mk ⟨2023, 3, 5⟩ 100 .INCOME none
              (some .SALARY))]))
          (monthlyKey ⟨2023, 3, 5⟩) ∧
      readCats
          (rebuildAll (replay emptyState
            ([] ++ [.ins (Transaction.mk ⟨2023, 3, 5⟩ 100 .INCOME none
              (some .SALARY))])))
          (yearlyKey ⟨2023, 3, 5⟩) =
        readCats
          (replay emptyState
            ([] ++ [.ins (Transaction.mk ⟨2023, 3, 5⟩ 100 .INCOME none
              (some .SALARY))]))
          (yearlyKey ⟨2023, 3, 5⟩) :=
  ⟨by decide, by decide,
    ((convergence_on_recomputed_buckets emptyState []
      (.ins (Transaction.mk ⟨2023, 3, 5⟩ 100 .INCOME none (some .SALARY)))).2.2.1
      (by decide)).1,
    ((convergence_on_recomputed_buckets emptyState []
      (.ins (Transaction.mk ⟨2023, 3, 5⟩ 100 .INCOME none (some .SALARY)))).2.2.2
      (by decide)).2⟩

end MyFinance
